import Mathlib

/-!
Verification of `disable-victron-bluetooth.py`.

The script toggles two Victron Venus OS services.  We give a shallow
embedding of its state-manipulating core: the ambient system state
(`Sys`) records the facts the script reads and writes (the D-Bus
settings values, file modes, service supervision status, root mount
mode, and the persisted state file), and every operation is a pure
function from `Sys` to a result carrying the new state, a trace of
externally visible effects (`Ev`), and an optional fatal error.

External commands (`dbus-send`, `svc`, `mount`, `os.chmod`) are
modelled by their effect on `Sys`; whether each can succeed is part of
the state (`busUp`, `remountRwOk`, `remountRoOk`, `chmodFails`),
mirroring the script, which treats each failure as a warning.
-/

/-- Events: the externally visible mutations and warnings the script emits.
Read-only probes (`svstat`, `GetValue`, `os.stat`) are not recorded. -/
inductive Ev where
  | svcDown (name : String)
  | svcStart (name : String)
  | dbusSet (path : String) (v : Int)
  | chmod (p : String) (m : Nat)
  | writeState (content : String)
  | removeState
  | remountRw
  | remountRo
  | warn (msg : String)
deriving DecidableEq

/-- The ambient system state read and written by the script. -/
structure Sys where
  /-- `/opt/victronenergy/version` is a regular file (Venus OS check). -/
  venus : Bool
  /-- the settings bus (localsettings) answers `dbus-send` calls -/
  busUp : Bool
  /-- current integer value of each settings-bus path -/
  bus : String → Int
  /-- `some m` when the path is a regular file with mode bits `m` -/
  fileMode : String → Option Nat
  /-- `os.chmod` on this path raises `OSError` -/
  chmodFails : String → Bool
  /-- `svstat /service/<name>` reports ": up" -/
  svcUp : String → Bool
  /-- `/service/<name>` is a directory -/
  svcDir : String → Bool
  /-- the root filesystem is mounted read-only -/
  rootRO : Bool
  /-- `mount -o remount,rw /` exits 0 -/
  remountRwOk : Bool
  /-- `mount -o remount,ro /` exits 0 -/
  remountRoOk : Bool
  /-- content of `/data/disable-victron-bluetooth.state`, when that file exists -/
  stateFile : Option String

/-- `SERVICES` tuple of the script. -/
def SERVICES : List String := ["dbus-ble-sensors", "vesmart-server"]

/-- `DBUS_SETTINGS` dict of the script, in insertion order. -/
def DBUS_SETTINGS : List (String × String) :=
  [("BleSensors", "/Settings/Services/BleSensors"),
   ("Bluetooth", "/Settings/Services/Bluetooth")]

/-! ### Decimal rendering and Python `int()` parsing

`_save_settings` writes each value with an f-string (canonical decimal,
`-` sign for negatives); `_load_saved_settings` recovers it with
Python's `int()`, which strips whitespace, accepts an optional sign and
allows single underscores between digits.  We work over `List Char`. -/

/-- Decimal digits of `n`, most significant first (`str(n)` for a Python int). -/
def natChars (n : Nat) : List Char :=
  if n = 0 then ['0'] else (Nat.digits 10 n).reverse.map (fun d => Char.ofNat (48 + d))

/-- `str(v)` for a Python int: decimal digits with a `-` sign when negative. -/
def intChars : Int → List Char
  | Int.ofNat n => natChars n
  | Int.negSucc n => '-' :: natChars (n + 1)

/-- The characters Python `str.strip()` removes. -/
def pyIsSpace (c : Char) : Bool :=
  c = ' ' || c = '\t' || c = '\n' || c = '\r' || c = Char.ofNat 11 || c = Char.ofNat 12

/-- Python `str.strip()` on a list of characters. -/
def pyStrip (l : List Char) : List Char :=
  ((l.dropWhile pyIsSpace).reverse.dropWhile pyIsSpace).reverse

/-- Value of a decimal digit character. -/
def digitVal (c : Char) : Option Nat :=
  if c.isDigit then some (c.toNat - 48) else none

mutual

/-- Digits after the first one: decimal digits, a single `_` allowed between
two digits (Python underscore rule for integer literals). -/
def parseDigitsAux : Nat → List Char → Option Nat
  | acc, [] => some acc
  | acc, c :: cs =>
    match digitVal c with
    | some d => parseDigitsAux (acc * 10 + d) cs
    | none => if c = '_' then parseDigitsUnd acc cs else none

/-- Right after an underscore: the next character must be a digit. -/
def parseDigitsUnd : Nat → List Char → Option Nat
  | _, [] => none
  | acc, c :: cs =>
    match digitVal c with
    | some d => parseDigitsAux (acc * 10 + d) cs
    | none => none

end

/-- An unsigned decimal numeral: a digit followed by digits and inner underscores. -/
def parseDigits : List Char → Option Nat
  | [] => none
  | c :: cs =>
    match digitVal c with
    | some d => parseDigitsAux d cs
    | none => none

/-- Python `int(s)` on a string, `none` when it raises `ValueError`. -/
def pyParseIntChars (l : List Char) : Option Int :=
  match pyStrip l with
  | [] => none
  | c :: rest =>
    if c = '+' then (parseDigits rest).map (fun n => (n : Int))
    else if c = '-' then (parseDigits rest).map (fun n => -(n : Int))
    else (parseDigits (c :: rest)).map (fun n => (n : Int))

/-- Split on newline characters (`for line in f` followed by `strip()` sees
exactly these pieces; a trailing empty piece is harmless, it never parses). -/
def splitLines : List Char → List (List Char)
  | [] => [[]]
  | c :: cs =>
    if c = '\n' then [] :: splitLines cs
    else
      match splitLines cs with
      | [] => [[c]]
      | l :: ls => (c :: l) :: ls

/-- Python `line.split("=", 1)`: `some (before, after)` at the first `=`,
`none` when the line has no `=` (the `"=" in line` guard). -/
def splitFirstEq : List Char → Option (List Char × List Char)
  | [] => none
  | c :: cs =>
    if c = '=' then some ([], cs)
    else (splitFirstEq cs).map (fun p => (c :: p.1, p.2))

/-- Python dict assignment `m[k] = v`: update in place, else append. -/
def pyInsert (m : List (String × Int)) (k : String) (v : Int) : List (String × Int) :=
  if m.any (fun kv => kv.1 == k) then m.map (fun kv => if kv.1 == k then (k, v) else kv)
  else m ++ [(k, v)]

/-- One loop iteration of `_load_saved_settings`: strip the line, require an
`=`, require `int()` to succeed on the value part. -/
def parseLine (l : List Char) : Option (String × Int) :=
  match splitFirstEq (pyStrip l) with
  | some kv => (pyParseIntChars kv.2).map (fun n => (String.mk kv.1, n))
  | none => none

/-- Fold the lines into the `saved` dict, skipping unparsable lines. -/
def parseLines (ls : List (List Char)) : List (String × Int) :=
  ls.foldl (fun acc l =>
    match parseLine l with
    | some kv => pyInsert acc kv.1 kv.2
    | none => acc) []

/-- `_load_saved_settings` applied to a given file content. -/
def loadContent (c : String) : List (String × Int) :=
  parseLines (splitLines c.data)

/-- One `f.write(f"{key}={val}\n")` of `_save_settings`. -/
def lineChars (k : String) (v : Int) : List Char :=
  k.data ++ '=' :: intChars v ++ ['\n']

/-- The file content `_save_settings` writes for a dict of values. -/
def serializeSettings (values : List (String × Int)) : String :=
  String.mk (values.map (fun kv => lineChars kv.1 kv.2)).flatten

/-! ### The operations of the script -/

/-- `S_IXUSR | S_IXGRP | S_IXOTH` (`0o111`). -/
def execBits : Nat := 0o111

/-- Clearing mask: `st_mode & ~0o111` on the 32-bit unsigned `st_mode`
CPython exposes is the conjunction with this mask. -/
def execClear : Nat := 0xFFFFFFFF ^^^ 0o111

/-- `os.access(path, os.X_OK)` for the root user: the path is a regular file
with at least one execute bit set. -/
def accessX (s : Sys) (p : String) : Bool :=
  match s.fileMode p with
  | some m => m &&& execBits != 0
  | none => false

/-- `_dbus_set`: issues the `SetValue` call; it changes the setting and
returns `True` exactly when the settings bus is up. -/
def dbus_set (s : Sys) (path : String) (v : Int) : Sys × Bool × List Ev :=
  if s.busUp then
    ({s with bus := fun q => if q = path then v else s.bus q}, true, [Ev.dbusSet path v])
  else (s, false, [Ev.dbusSet path v])

/-- `_dbus_get`: reads a setting, `none` when the bus is down. -/
def dbus_get (s : Sys) (path : String) : Option Int :=
  if s.busUp then some (s.bus path) else none

/-- `_save_settings`: read both settings; if any value was readable, write
the `KEY=value` lines to the state file, otherwise only warn. -/
def save_settings (s : Sys) : Sys × List Ev :=
  let values : List (String × Int) :=
    DBUS_SETTINGS.filterMap (fun kp => (dbus_get s kp.2).map (fun v => (kp.1, v)))
  if values.isEmpty then
    (s, [Ev.warn "could not read current settings"])
  else
    ({s with stateFile := some (serializeSettings values)},
     [Ev.writeState (serializeSettings values)])

/-- `_load_saved_settings`: parse the state file when it exists, else `{}`. -/
def load_saved_settings (s : Sys) : List (String × Int) :=
  match s.stateFile with
  | some c => loadContent c
  | none => []

/-- `_chmod_off`: `os.stat` then clear the three execute bits; an `OSError`
(no such file, or a failing `chmod`) is caught and warned. -/
def chmod_off (s : Sys) (p : String) : Sys × Bool × List Ev :=
  match s.fileMode p with
  | none => (s, false, [Ev.warn ("could not chmod " ++ p)])
  | some m =>
    if s.chmodFails p then (s, false, [Ev.warn ("could not chmod " ++ p)])
    else
      ({s with fileMode := fun q => if q = p then some (m &&& execClear) else s.fileMode q},
       true, [Ev.chmod p (m &&& execClear)])

/-- `_chmod_on`: `os.stat` then set the three execute bits; an `OSError`
is caught and warned. -/
def chmod_on (s : Sys) (p : String) : Sys × Bool × List Ev :=
  match s.fileMode p with
  | none => (s, false, [Ev.warn ("could not chmod " ++ p)])
  | some m =>
    if s.chmodFails p then (s, false, [Ev.warn ("could not chmod " ++ p)])
    else
      ({s with fileMode := fun q => if q = p then some (m ||| execBits) else s.fileMode q},
       true, [Ev.chmod p (m ||| execBits)])

/-- `_all_scripts`: the known run/start script paths of a service. -/
def all_scripts (name : String) : List String :=
  ["/service/" ++ name ++ "/run",
   "/opt/victronenergy/service/" ++ name ++ "/run",
   "/opt/victronenergy/service-templates/" ++ name ++ "/run",
   "/opt/victronenergy/" ++ name ++ "/start-ble-sensors.sh",
   "/opt/victronenergy/" ++ name ++ "/" ++ name ++ ".sh"]

/-- One iteration of the script-path loop in `disable_service`:
`if os.path.isfile(path) and os.access(path, os.X_OK): _chmod_off(path)`. -/
def disableScriptStep (s : Sys) (p : String) : Sys × List Ev :=
  if (s.fileMode p).isSome && accessX s p then
    let r := chmod_off s p
    (r.1, r.2.2)
  else (s, [])

/-- One iteration of the script-path loop in `restore_service`:
`if os.path.isfile(path) and not os.access(path, os.X_OK): _chmod_on(path)`. -/
def restoreScriptStep (s : Sys) (p : String) : Sys × List Ev :=
  if (s.fileMode p).isSome && !accessX s p then
    let r := chmod_on s p
    (r.1, r.2.2)
  else (s, [])

/-- Run an event-producing step over a list in order, threading the state
and concatenating the traces (a Python `for` loop over side effects). -/
def phaseFold {α : Type} (step : Sys → α → Sys × List Ev) :
    List α → Sys → Sys × List Ev
  | [], s => (s, [])
  | x :: xs, s =>
    let r := step s x
    let rest := phaseFold step xs r.1
    (rest.1, r.2 ++ rest.2)

/-- `disable_service`: stop the service when `svstat` reports it up, then
strip the execute bits from every script path that is executable. -/
def disable_service (s : Sys) (name : String) : Sys × List Ev :=
  let a :=
    if s.svcUp name then
      ({s with svcUp := fun q => if q = name then false else s.svcUp q}, [Ev.svcDown name])
    else (s, [])
  let b := phaseFold disableScriptStep (all_scripts name) a.1
  (b.1, a.2 ++ b.2)

/-- `restore_service`: make every non-executable script path executable,
then start the service when `/service/<name>` is a directory. -/
def restore_service (s : Sys) (name : String) : Sys × List Ev :=
  let a := phaseFold restoreScriptStep (all_scripts name) s
  let b :=
    if a.1.svcDir name then
      ({a.1 with svcUp := fun q => if q = name then true else a.1.svcUp q}, [Ev.svcStart name])
    else (a.1, [])
  (b.1, a.2 ++ b.2)

/-- `_RootRemount.__enter__`: remount read-write when the root is read-only,
remembering whether the remount succeeded; a failure is only warned. -/
def remountEnter (s : Sys) : Sys × Bool × List Ev :=
  if s.rootRO then
    if s.remountRwOk then ({s with rootRO := false}, true, [Ev.remountRw])
    else (s, false, [Ev.remountRw, Ev.warn "failed to remount root read-write"])
  else (s, false, [])

/-- `_RootRemount.__exit__`: when the enter remounted, remount read-only;
a failure is only warned.  Runs on every exit path. -/
def remountExit (did : Bool) (s : Sys) : Sys × List Ev :=
  if did then
    if s.remountRoOk then ({s with rootRO := true}, [Ev.remountRo])
    else (s, [Ev.remountRo, Ev.warn "failed to restore root to read-only"])
  else (s, [])

/-- Result of a whole operation: final state, trace, optional fatal error. -/
structure BRes where
  state : Sys
  evs : List Ev
  err : Option String

/-- The `with _RootRemount():` block: enter, run the body, and always run
the exit handler, whether or not the body reports an error, which is then
propagated (`__exit__` returns `False`). -/
def withRootRemount (body : Sys → BRes) (s : Sys) : BRes :=
  let r := remountEnter s
  let b := body r.1
  let x := remountExit r.2.1 b.state
  ⟨x.1, r.2.2 ++ b.evs ++ x.2, b.err⟩

/-- The `SystemExit` message of `_require_venus_os`. -/
def fatalMsg : String :=
  "This does not appear to be a Venus OS system"

/-- One iteration of a settings-writing loop: `_dbus_set(path, v key)`,
with a warning when the call fails. -/
def setStep (v : String → Int) (t : Sys) (kp : String × String) : Sys × List Ev :=
  let r := dbus_set t kp.2 (v kp.1)
  (r.1, r.2.2 ++ if r.2.1 then [] else [Ev.warn ("could not update " ++ kp.1)])

/-- The settings-zeroing loop of `disable_victron_ble`. -/
def zeroSettings (s : Sys) : Sys × List Ev :=
  phaseFold (setStep (fun _ => 0)) DBUS_SETTINGS s

/-- The settings-restoring loop of `restore_victron_ble`:
`value = saved.get(key, 1)` then `_dbus_set(path, value)`. -/
def restoreSettings (saved : List (String × Int)) (s : Sys) : Sys × List Ev :=
  phaseFold (setStep (fun k => (saved.lookup k).getD 1)) DBUS_SETTINGS s

/-- `disable_victron_ble`: require Venus OS (fatal otherwise), save the
current settings, zero both settings, and inside the remount block stop
and de-executable both services. -/
def disable_victron_ble (s : Sys) : BRes :=
  if s.venus = false then ⟨s, [], some fatalMsg⟩
  else
    let a := save_settings s
    let b := zeroSettings a.1
    let c := withRootRemount
      (fun t => let r := phaseFold disable_service SERVICES t; ⟨r.1, r.2, none⟩) b.1
    ⟨c.state, a.2 ++ b.2 ++ c.evs, c.err⟩

/-- `restore_victron_ble`: require Venus OS (fatal otherwise), load the
saved settings, write them back (default 1), inside the remount block
re-executable and start both services, then delete the state file if it
exists. -/
def restore_victron_ble (s : Sys) : BRes :=
  if s.venus = false then ⟨s, [], some fatalMsg⟩
  else
    let saved := load_saved_settings s
    let b := restoreSettings saved s
    let c := withRootRemount
      (fun t => let r := phaseFold restore_service SERVICES t; ⟨r.1, r.2, none⟩) b.1
    let fin :=
      match c.state.stateFile with
      | some _ => ({c.state with stateFile := none}, [Ev.removeState])
      | none => (c.state, [])
    ⟨fin.1, b.2 ++ c.evs ++ fin.2, c.err⟩

/-! ### Derived notions used by the specifications -/

/-- The settings-bus path of the BleSensors setting. -/
def blePath : String := "/Settings/Services/BleSensors"

/-- The settings-bus path of the Bluetooth setting. -/
def btPath : String := "/Settings/Services/Bluetooth"

/-- The state-file content `_save_settings` writes when the bus is up. -/
def savedContent (s : Sys) : String :=
  serializeSettings [("BleSensors", s.bus blePath), ("Bluetooth", s.bus btPath)]

/-- Mode of a script path after the disable pass visited it. -/
def offResult (s : Sys) (p : String) : Option Nat :=
  (s.fileMode p).map (fun m =>
    if (m &&& execBits != 0) && !s.chmodFails p then m &&& execClear else m)

/-- Mode of a script path after the restore pass visited it. -/
def onResult (s : Sys) (p : String) : Option Nat :=
  (s.fileMode p).map (fun m =>
    if (m &&& execBits == 0) && !s.chmodFails p then m ||| execBits else m)

/-- Every known script path of the two services. -/
def allKnownPaths : List String :=
  all_scripts "dbus-ble-sensors" ++ all_scripts "vesmart-server"

/-- All fields except `fileMode` agree. -/
def NonFileEq (t s : Sys) : Prop :=
  t.venus = s.venus ∧ t.busUp = s.busUp ∧ t.bus = s.bus ∧
  t.chmodFails = s.chmodFails ∧ t.svcUp = s.svcUp ∧ t.svcDir = s.svcDir ∧
  t.rootRO = s.rootRO ∧ t.remountRwOk = s.remountRwOk ∧
  t.remountRoOk = s.remountRoOk ∧ t.stateFile = s.stateFile

/-- All fields except `fileMode` and `svcUp` agree. -/
def SvcFrame (t s : Sys) : Prop :=
  t.venus = s.venus ∧ t.busUp = s.busUp ∧ t.bus = s.bus ∧
  t.chmodFails = s.chmodFails ∧ t.svcDir = s.svcDir ∧
  t.rootRO = s.rootRO ∧ t.remountRwOk = s.remountRwOk ∧
  t.remountRoOk = s.remountRoOk ∧ t.stateFile = s.stateFile

/-- All fields except `bus` agree. -/
def BusFrame (t s : Sys) : Prop :=
  t.venus = s.venus ∧ t.busUp = s.busUp ∧ t.fileMode = s.fileMode ∧
  t.chmodFails = s.chmodFails ∧ t.svcUp = s.svcUp ∧ t.svcDir = s.svcDir ∧
  t.rootRO = s.rootRO ∧ t.remountRwOk = s.remountRwOk ∧
  t.remountRoOk = s.remountRoOk ∧ t.stateFile = s.stateFile

/-- The Bluetooth value `restore_victron_ble` writes back: the saved value,
defaulting to 1 when the key is missing. -/
def vBt (s : Sys) : Int := ((load_saved_settings s).lookup "Bluetooth").getD 1

/-- The BleSensors value `restore_victron_ble` writes back. -/
def vBle (s : Sys) : Int := ((load_saved_settings s).lookup "BleSensors").getD 1

/-- All fields except `rootRO` agree. -/
def NonRootEq (t s : Sys) : Prop :=
  t.venus = s.venus ∧ t.busUp = s.busUp ∧ t.bus = s.bus ∧
  t.fileMode = s.fileMode ∧ t.chmodFails = s.chmodFails ∧
  t.svcUp = s.svcUp ∧ t.svcDir = s.svcDir ∧
  t.remountRwOk = s.remountRwOk ∧ t.remountRoOk = s.remountRoOk ∧
  t.stateFile = s.stateFile

/-- All fields except `stateFile` agree. -/
def StateFileFrame (t s : Sys) : Prop :=
  t.venus = s.venus ∧ t.busUp = s.busUp ∧ t.bus = s.bus ∧
  t.fileMode = s.fileMode ∧ t.chmodFails = s.chmodFails ∧
  t.svcUp = s.svcUp ∧ t.svcDir = s.svcDir ∧
  t.rootRO = s.rootRO ∧ t.remountRwOk = s.remountRwOk ∧
  t.remountRoOk = s.remountRoOk

/-- The state after the service-stop step of `disable_service`. -/
def stopSt (s : Sys) (name : String) : Sys :=
  if s.svcUp name = true then
    {s with svcUp := fun q => if q = name then false else s.svcUp q}
  else s

/-- The state after the service-start step of `restore_service`. -/
def startSt (t : Sys) (name : String) : Sys :=
  if t.svcDir name = true then
    {t with svcUp := fun q => if q = name then true else t.svcUp q}
  else t

/-- A line of the state file that `_load_saved_settings` accepts. -/
def lineParses (l : List Char) : Bool := (parseLine l).isSome

/-- Event classifiers, used to speak about classes of mutations. -/
def evIsChmod : Ev → Bool
  | Ev.chmod _ _ => true
  | _ => false

def evIsSvcDown : Ev → Bool
  | Ev.svcDown _ => true
  | _ => false

def evIsWriteState : Ev → Bool
  | Ev.writeState _ => true
  | _ => false

def evIsDbusSet : Ev → Bool
  | Ev.dbusSet _ _ => true
  | _ => false

def evIsRemoveState : Ev → Bool
  | Ev.removeState => true
  | _ => false

def evIsWarn : Ev → Bool
  | Ev.warn _ => true
  | _ => false

/-- A concrete healthy starting state used to exercise the theorems:
Venus OS host, bus up, one running service, one script with mode `0o744`,
one with mode `0o400`, read-only root with working remounts, no state file. -/
def wsBase : Sys :=
  { venus := true
    busUp := true
    bus := fun q => if q = blePath then 3 else if q = btPath then 1 else 9
    fileMode := fun p =>
      if p = "/service/dbus-ble-sensors/run" then some 0o744
      else if p = "/opt/victronenergy/vesmart-server/vesmart-server.sh" then some 0o400
      else none
    chmodFails := fun _ => false
    svcUp := fun n => n == "dbus-ble-sensors"
    svcDir := fun n => n == "dbus-ble-sensors"
    rootRO := true
    remountRwOk := true
    remountRoOk := true
    stateFile := none }

/-- `wsBase` with a failing read-only remount. -/
def wsRoFail : Sys := { wsBase with remountRoOk := false }

/-- `wsBase` on a host that is not Venus OS. -/
def wsNoVenus : Sys := { wsBase with venus := false }

/-- `wsBase` with the settings bus unreachable. -/
def wsBusDown : Sys := { wsBase with busUp := false }

/-- `wsBase` where chmod fails on the running service's live run script. -/
def wsChmodFail : Sys :=
  { wsBase with chmodFails := fun p => p == "/service/dbus-ble-sensors/run" }

/-- `wsBase` with a failing read-write remount. -/
def wsRwFail : Sys := { wsBase with remountRwOk := false }

/-- A block body that mutates state, emits an event and reports an error;
it leaves the remount configuration alone. -/
def bodyBoom : Sys → BRes :=
  fun t => ⟨{t with bus := fun _ => 0}, [Ev.warn "inner failure"], some "inner error"⟩

/-! ### Round trip of the persisted state file -/

/-- The decimal digit characters written for a digit below ten are parsed
back by `digitVal` and are not special characters of the format. -/
lemma digitChar_spec {d : Nat} (hd : d < 10) :
    digitVal (Char.ofNat (48 + d)) = some d ∧
    pyIsSpace (Char.ofNat (48 + d)) = false ∧
    Char.ofNat (48 + d) ≠ '+' ∧ Char.ofNat (48 + d) ≠ '-' ∧
    Char.ofNat (48 + d) ≠ '_' ∧ Char.ofNat (48 + d) ≠ '=' ∧
    Char.ofNat (48 + d) ≠ '\n' := by
  interval_cases d <;> refine ⟨by decide, by decide, by decide, by decide, by decide, by decide, by decide⟩

lemma parseDigitsAux_digits :
    ∀ (ds : List Nat), (∀ d ∈ ds, d < 10) → ∀ acc : Nat,
      parseDigitsAux acc (ds.map (fun d => Char.ofNat (48 + d)))
        = some (ds.foldl (fun a d => a * 10 + d) acc) := by
  intro ds
  induction ds with
  | nil => intro _ acc; rfl
  | cons d ds ih =>
    intro h acc
    have hd : d < 10 := h d (by simp)
    have hs := digitChar_spec hd
    simp only [List.map_cons, parseDigitsAux, List.foldl_cons]
    rw [hs.1]
    exact ih (fun x hx => h x (by simp [hx])) (acc * 10 + d)

lemma parseDigits_digits (ds : List Nat) (hne : ds ≠ []) (h : ∀ d ∈ ds, d < 10) :
    parseDigits (ds.map (fun d => Char.ofNat (48 + d)))
      = some (ds.foldl (fun a d => a * 10 + d) 0) := by
  cases ds with
  | nil => exact absurd rfl hne
  | cons d ds =>
    have hd : d < 10 := h d (by simp)
    have hs := digitChar_spec hd
    simp only [List.map_cons, parseDigits, List.foldl_cons]
    rw [hs.1, Nat.zero_mul, Nat.zero_add]
    exact parseDigitsAux_digits ds (fun x hx => h x (by simp [hx])) d

lemma foldr_ofDigits : ∀ L : List Nat,
    L.foldr (fun d a => a * 10 + d) 0 = Nat.ofDigits 10 L := by
  intro L
  induction L with
  | nil => simp [Nat.ofDigits]
  | cons d L ih =>
    simp only [List.foldr_cons, ih, Nat.ofDigits_cons]
    ring

/-- Every value of `natChars` is a list of digit characters. -/
lemma natChars_shape (n : Nat) :
    ∃ ds : List Nat, (∀ d ∈ ds, d < 10) ∧ ds ≠ [] ∧
      natChars n = ds.map (fun d => Char.ofNat (48 + d)) := by
  by_cases h0 : n = 0
  · exact ⟨[0], by simp, by simp, by simp [natChars, h0]⟩
  · refine ⟨(Nat.digits 10 n).reverse, ?_, ?_, ?_⟩
    · intro d hd
      exact Nat.digits_lt_base (by norm_num) (List.mem_reverse.mp hd)
    · simp [Nat.digits_ne_nil_iff_ne_zero, h0]
    · simp [natChars, h0]

lemma parseDigits_natChars (n : Nat) : parseDigits (natChars n) = some n := by
  by_cases h0 : n = 0
  · subst h0; decide
  · unfold natChars
    rw [if_neg h0]
    have hne : (Nat.digits 10 n).reverse ≠ [] := by
      simp [Nat.digits_ne_nil_iff_ne_zero, h0]
    have hlt : ∀ d ∈ (Nat.digits 10 n).reverse, d < 10 :=
      fun d hd => Nat.digits_lt_base (by norm_num) (List.mem_reverse.mp hd)
    rw [parseDigits_digits _ hne hlt]
    congr 1
    rw [List.foldl_reverse, foldr_ofDigits]
    exact Nat.ofDigits_digits 10 n

lemma dropWhile_no_space (l : List Char) (h : ∀ c ∈ l, pyIsSpace c = false) :
    l.dropWhile pyIsSpace = l := by
  cases l with
  | nil => rfl
  | cons c cs => simp [List.dropWhile_cons, h c (by simp)]

lemma pyStrip_no_space (l : List Char) (h : ∀ c ∈ l, pyIsSpace c = false) :
    pyStrip l = l := by
  unfold pyStrip
  rw [dropWhile_no_space l h,
      dropWhile_no_space _ (fun c hc => h c (List.mem_reverse.mp hc)),
      List.reverse_reverse]

lemma natChars_nospace (n : Nat) :
    ∀ c ∈ natChars n, pyIsSpace c = false ∧ c ≠ '=' ∧ c ≠ '\n' := by
  obtain ⟨ds, hlt, _, hmap⟩ := natChars_shape n
  rw [hmap]
  intro c hc
  obtain ⟨d, hd, rfl⟩ := List.mem_map.mp hc
  have := digitChar_spec (hlt d hd)
  exact ⟨this.2.1, this.2.2.2.2.2.1, this.2.2.2.2.2.2⟩

lemma intChars_nospace (v : Int) :
    ∀ c ∈ intChars v, pyIsSpace c = false ∧ c ≠ '=' ∧ c ≠ '\n' := by
  cases v with
  | ofNat n => simpa [intChars] using natChars_nospace n
  | negSucc n =>
    intro c hc
    simp only [intChars, List.mem_cons] at hc
    rcases hc with rfl | hc
    · exact ⟨by decide, by decide, by decide⟩
    · exact natChars_nospace (n + 1) c hc

lemma pyParse_natChars (n : Nat) : pyParseIntChars (natChars n) = some (n : Int) := by
  obtain ⟨ds, hlt, hne, hmap⟩ := natChars_shape n
  have hnospace : ∀ c ∈ natChars n, pyIsSpace c = false :=
    fun c hc => (natChars_nospace n c hc).1
  unfold pyParseIntChars
  rw [pyStrip_no_space _ hnospace]
  cases ds with
  | nil => exact absurd rfl hne
  | cons d ds =>
    have hs := digitChar_spec (hlt d (by simp))
    rw [hmap]
    simp only [List.map_cons]
    rw [if_neg hs.2.2.1, if_neg hs.2.2.2.1]
    rw [show Char.ofNat (48 + d) :: ds.map (fun d => Char.ofNat (48 + d))
          = natChars n from by rw [hmap]; simp]
    rw [parseDigits_natChars n]
    rfl

lemma pyParseIntChars_intChars (v : Int) : pyParseIntChars (intChars v) = some v := by
  cases v with
  | ofNat n => simpa [intChars] using pyParse_natChars n
  | negSucc n =>
    have hnospace : ∀ c ∈ intChars (Int.negSucc n), pyIsSpace c = false := by
      intro c hc
      simp only [intChars, List.mem_cons] at hc
      rcases hc with rfl | hc
      · decide
      · exact (natChars_nospace (n + 1) c hc).1
    unfold pyParseIntChars
    rw [pyStrip_no_space _ hnospace]
    simp only [intChars]
    simp [parseDigits_natChars (n + 1), Int.negSucc_eq]

lemma splitLines_append (l r : List Char) (h : ∀ c ∈ l, c ≠ '\n') :
    splitLines (l ++ '\n' :: r) = l :: splitLines r := by
  induction l with
  | nil => simp [splitLines]
  | cons c cs ih =>
    have hc : c ≠ '\n' := h c (by simp)
    simp only [List.cons_append, splitLines, List.append_eq]
    rw [if_neg hc, ih (fun x hx => h x (by simp [hx]))]

lemma splitFirstEq_append (a b : List Char) (h : ∀ c ∈ a, c ≠ '=') :
    splitFirstEq (a ++ '=' :: b) = some (a, b) := by
  induction a with
  | nil => simp [splitFirstEq]
  | cons c cs ih =>
    have hc : c ≠ '=' := h c (by simp)
    simp only [List.cons_append, splitFirstEq, List.append_eq]
    rw [if_neg hc, ih (fun x hx => h x (by simp [hx]))]
    rfl

/-- A well-formed `KEY=value` line parses back to its pair. -/
lemma parseLine_good (k : String) (v : Int)
    (hk : ∀ c ∈ k.data, pyIsSpace c = false ∧ c ≠ '=' ∧ c ≠ '\n') :
    parseLine (k.data ++ '=' :: intChars v) = some (k, v) := by
  have hall : ∀ c ∈ k.data ++ '=' :: intChars v, pyIsSpace c = false := by
    intro c hc
    rcases List.mem_append.mp hc with hc | hc
    · exact (hk c hc).1
    · rcases List.mem_cons.mp hc with rfl | hc
      · decide
      · exact (intChars_nospace v c hc).1
  unfold parseLine
  rw [pyStrip_no_space _ hall,
      splitFirstEq_append _ _ (fun c hc => (hk c hc).2.1)]
  simp [pyParseIntChars_intChars]

lemma pyInsert_notmem (m : List (String × Int)) (k : String) (v : Int)
    (h : m.any (fun kv => kv.1 == k) = false) :
    pyInsert m k v = m ++ [(k, v)] := by
  simp [pyInsert, h]

lemma splitLines_serialize (vals : List (String × Int))
    (h : ∀ kv ∈ vals, ∀ c ∈ kv.1.data, c ≠ '\n') :
    splitLines (serializeSettings vals).data
      = vals.map (fun kv => kv.1.data ++ '=' :: intChars kv.2) ++ [[]] := by
  induction vals with
  | nil => rfl
  | cons kv vals ih =>
    have hdata : (serializeSettings (kv :: vals)).data
        = (kv.1.data ++ '=' :: intChars kv.2) ++ '\n' :: (serializeSettings vals).data := by
      simp [serializeSettings, lineChars]
    rw [hdata, splitLines_append]
    · rw [ih (fun e he c hc => h e (by simp [he]) c hc)]
      simp
    · intro c hc
      rcases List.mem_append.mp hc with hc | hc
      · exact h kv (by simp) c hc
      · rcases List.mem_cons.mp hc with rfl | hc
        · decide
        · exact (intChars_nospace kv.2 c hc).2.2

lemma parseLines_fold_good (vals : List (String × Int)) :
    ∀ acc : List (String × Int),
      (∀ kv ∈ vals, ∀ c ∈ kv.1.data, pyIsSpace c = false ∧ c ≠ '=' ∧ c ≠ '\n') →
      (vals.map Prod.fst).Nodup →
      (∀ kv ∈ vals, acc.any (fun e => e.1 == kv.1) = false) →
      List.foldl (fun acc l =>
          match parseLine l with
          | some kv => pyInsert acc kv.1 kv.2
          | none => acc) acc
        (vals.map (fun kv => kv.1.data ++ '=' :: intChars kv.2))
      = acc ++ vals := by
  induction vals with
  | nil => intro acc _ _ _; simp
  | cons kv vals ih =>
    intro acc hnice hnod hdisj
    obtain ⟨k, v⟩ := kv
    simp only [List.map_cons, List.foldl_cons,
      parseLine_good k v (hnice (k, v) (by simp)),
      pyInsert_notmem acc k v (hdisj (k, v) (by simp))]
    have hnod' : (vals.map Prod.fst).Nodup := (List.nodup_cons.mp hnod).2
    have hknot : k ∉ vals.map Prod.fst := (List.nodup_cons.mp hnod).1
    rw [ih (acc ++ [(k, v)])
        (fun e he c hc => hnice e (by simp [he]) c hc) hnod'
        (fun e he => by
          rw [List.any_append]
          have h1 : acc.any (fun x => x.1 == e.1) = false := hdisj e (by simp [he])
          have h2 : (k == e.1) = false := by
            rw [beq_eq_false_iff_ne]
            intro hk
            exact hknot (hk ▸ List.mem_map_of_mem Prod.fst he)
          simp [h1, h2])]
    simp

/-- Writing a dict whose keys are clean of the format's special characters
and pairwise distinct, then parsing the file, recovers exactly the dict. -/
lemma roundtrip_general (vals : List (String × Int))
    (h1 : ∀ kv ∈ vals, ∀ c ∈ kv.1.data, pyIsSpace c = false ∧ c ≠ '=' ∧ c ≠ '\n')
    (h2 : (vals.map Prod.fst).Nodup) :
    loadContent (serializeSettings vals) = vals := by
  unfold loadContent parseLines
  rw [splitLines_serialize vals (fun e he c hc => (h1 e he c hc).2.2),
      List.foldl_append,
      parseLines_fold_good vals [] h1 h2 (fun kv _ => rfl)]
  simp [show parseLine ([] : List Char) = none from rfl]

lemma parseLines_skips (ls : List (List Char)) :
    ∀ acc : List (String × Int),
      List.foldl (fun acc l =>
          match parseLine l with
          | some kv => pyInsert acc kv.1 kv.2
          | none => acc) acc ls
      = List.foldl (fun acc l =>
          match parseLine l with
          | some kv => pyInsert acc kv.1 kv.2
          | none => acc) acc (ls.filter lineParses) := by
  induction ls with
  | nil => intro acc; rfl
  | cons l ls ih =>
    intro acc
    by_cases hl : lineParses l = true
    · obtain ⟨kv, hkv⟩ := Option.isSome_iff_exists.mp hl
      simp only [List.foldl_cons, List.filter_cons, hl, if_pos trivial, hkv]
      exact ih (pyInsert acc kv.1 kv.2)
    · have hnone : parseLine l = none := by
        rw [Bool.not_eq_true] at hl
        exact Option.not_isSome_iff_eq_none.mp (by simpa [lineParses] using hl)
      simp only [List.foldl_cons, List.filter_cons, hl, hnone]
      exact ih acc

/-! ### State-transition lemmas for the phases -/

lemma NonFileEq_refl (s : Sys) : NonFileEq s s :=
  ⟨rfl, rfl, rfl, rfl, rfl, rfl, rfl, rfl, rfl, rfl⟩

lemma NonFileEq_trans {a b c : Sys} (h1 : NonFileEq a b) (h2 : NonFileEq b c) :
    NonFileEq a c := by
  unfold NonFileEq at *
  exact ⟨h1.1.trans h2.1, h1.2.1.trans h2.2.1, h1.2.2.1.trans h2.2.2.1,
    h1.2.2.2.1.trans h2.2.2.2.1, h1.2.2.2.2.1.trans h2.2.2.2.2.1,
    h1.2.2.2.2.2.1.trans h2.2.2.2.2.2.1, h1.2.2.2.2.2.2.1.trans h2.2.2.2.2.2.2.1,
    h1.2.2.2.2.2.2.2.1.trans h2.2.2.2.2.2.2.2.1,
    h1.2.2.2.2.2.2.2.2.1.trans h2.2.2.2.2.2.2.2.2.1,
    h1.2.2.2.2.2.2.2.2.2.trans h2.2.2.2.2.2.2.2.2.2⟩

lemma phaseFold_nil {α : Type} (step : Sys → α → Sys × List Ev) (s : Sys) :
    phaseFold step [] s = (s, []) := rfl

lemma phaseFold_cons {α : Type} (step : Sys → α → Sys × List Ev) (x : α)
    (xs : List α) (s : Sys) :
    phaseFold step (x :: xs) s
      = ((phaseFold step xs (step s x).1).1,
         (step s x).2 ++ (phaseFold step xs (step s x).1).2) := rfl

lemma disableScriptStep_fileMode_self (s : Sys) (p : String) :
    (disableScriptStep s p).1.fileMode p = offResult s p := by
  unfold disableScriptStep chmod_off offResult accessX
  cases h : s.fileMode p with
  | none => simp [h]
  | some m =>
    by_cases hx : m &&& execBits = 0
    · have hxb : (m &&& execBits != 0) = false := by simp [bne_eq_false_iff_eq, hx]
      simp [h, hxb, hx]
    · have hxb : (m &&& execBits != 0) = true := by simpa using hx
      by_cases hc : s.chmodFails p
      · simp [h, hxb, hc, hx]
      · have hcb : s.chmodFails p = false := by simpa using hc
        simp [h, hxb, hcb, hx]

lemma disableScriptStep_fileMode_other (s : Sys) (p q : String) (hq : q ≠ p) :
    (disableScriptStep s p).1.fileMode q = s.fileMode q := by
  unfold disableScriptStep chmod_off accessX
  cases h : s.fileMode p with
  | none => simp [h]
  | some m =>
    by_cases hx : m &&& execBits = 0
    · have hxb : (m &&& execBits != 0) = false := by simp [bne_eq_false_iff_eq, hx]
      simp [h, hxb]
    · have hxb : (m &&& execBits != 0) = true := by simpa using hx
      by_cases hc : s.chmodFails p
      · simp [h, hxb, hc]
      · have hcb : s.chmodFails p = false := by simpa using hc
        simp [h, hxb, hcb, hq]

lemma disableScriptStep_nonFile (s : Sys) (p : String) :
    NonFileEq (disableScriptStep s p).1 s := by
  unfold NonFileEq disableScriptStep chmod_off accessX
  cases h : s.fileMode p with
  | none => simp [h]
  | some m =>
    by_cases hx : m &&& execBits = 0
    · have hxb : (m &&& execBits != 0) = false := by simp [bne_eq_false_iff_eq, hx]
      simp [h, hxb]
    · have hxb : (m &&& execBits != 0) = true := by simpa using hx
      by_cases hc : s.chmodFails p
      · simp [h, hxb, hc]
      · have hcb : s.chmodFails p = false := by simpa using hc
        simp [h, hxb, hcb]

lemma restoreScriptStep_fileMode_self (s : Sys) (p : String) :
    (restoreScriptStep s p).1.fileMode p = onResult s p := by
  unfold restoreScriptStep chmod_on onResult accessX
  cases h : s.fileMode p with
  | none => simp [h]
  | some m =>
    by_cases hx : m &&& execBits = 0
    · have hxb : (m &&& execBits != 0) = false := by simp [bne_eq_false_iff_eq, hx]
      have hxq : (m &&& execBits == 0) = true := by simpa using hx
      by_cases hc : s.chmodFails p
      · simp [h, hxb, hxq, hc]
      · have hcb : s.chmodFails p = false := by simpa using hc
        simp [h, hxb, hxq, hcb, hx]
    · have hxb : (m &&& execBits != 0) = true := by simpa using hx
      have hxq : (m &&& execBits == 0) = false := by simpa using hx
      simp [h, hxb, hxq, hx]

lemma restoreScriptStep_fileMode_other (s : Sys) (p q : String) (hq : q ≠ p) :
    (restoreScriptStep s p).1.fileMode q = s.fileMode q := by
  unfold restoreScriptStep chmod_on accessX
  cases h : s.fileMode p with
  | none => simp [h]
  | some m =>
    by_cases hx : m &&& execBits = 0
    · have hxb : (m &&& execBits != 0) = false := by simp [bne_eq_false_iff_eq, hx]
      by_cases hc : s.chmodFails p
      · simp [h, hxb, hc]
      · have hcb : s.chmodFails p = false := by simpa using hc
        simp [h, hxb, hcb, hq]
    · have hxb : (m &&& execBits != 0) = true := by simpa using hx
      simp [h, hxb]

lemma restoreScriptStep_nonFile (s : Sys) (p : String) :
    NonFileEq (restoreScriptStep s p).1 s := by
  unfold NonFileEq restoreScriptStep chmod_on accessX
  cases h : s.fileMode p with
  | none => simp [h]
  | some m =>
    by_cases hx : m &&& execBits = 0
    · have hxb : (m &&& execBits != 0) = false := by simp [bne_eq_false_iff_eq, hx]
      by_cases hc : s.chmodFails p
      · simp [h, hxb, hc]
      · have hcb : s.chmodFails p = false := by simpa using hc
        simp [h, hxb, hcb]
    · have hxb : (m &&& execBits != 0) = true := by simpa using hx
      simp [h, hxb]

lemma offResult_congr {t s : Sys} (p : String)
    (h1 : t.fileMode p = s.fileMode p) (h2 : t.chmodFails p = s.chmodFails p) :
    offResult t p = offResult s p := by
  unfold offResult
  rw [h1, h2]

lemma onResult_congr {t s : Sys} (p : String)
    (h1 : t.fileMode p = s.fileMode p) (h2 : t.chmodFails p = s.chmodFails p) :
    onResult t p = onResult s p := by
  unfold onResult
  rw [h1, h2]

lemma offPhase_nonFile (paths : List String) :
    ∀ s : Sys, NonFileEq (phaseFold disableScriptStep paths s).1 s := by
  induction paths with
  | nil => intro s; exact NonFileEq_refl s
  | cons q qs ih =>
    intro s
    rw [phaseFold_cons]
    exact NonFileEq_trans (ih (disableScriptStep s q).1) (disableScriptStep_nonFile s q)

lemma onPhase_nonFile (paths : List String) :
    ∀ s : Sys, NonFileEq (phaseFold restoreScriptStep paths s).1 s := by
  induction paths with
  | nil => intro s; exact NonFileEq_refl s
  | cons q qs ih =>
    intro s
    rw [phaseFold_cons]
    exact NonFileEq_trans (ih (restoreScriptStep s q).1) (restoreScriptStep_nonFile s q)

lemma offPhase_fileMode_notmem (paths : List String) :
    ∀ (s : Sys) (p : String), p ∉ paths →
      (phaseFold disableScriptStep paths s).1.fileMode p = s.fileMode p := by
  induction paths with
  | nil => intro s p _; rfl
  | cons q qs ih =>
    intro s p hp
    rw [phaseFold_cons]
    rw [ih _ p (fun h => hp (List.mem_cons_of_mem q h))]
    exact disableScriptStep_fileMode_other s q p (fun h => hp (h ▸ List.mem_cons_self q qs))

lemma onPhase_fileMode_notmem (paths : List String) :
    ∀ (s : Sys) (p : String), p ∉ paths →
      (phaseFold restoreScriptStep paths s).1.fileMode p = s.fileMode p := by
  induction paths with
  | nil => intro s p _; rfl
  | cons q qs ih =>
    intro s p hp
    rw [phaseFold_cons]
    rw [ih _ p (fun h => hp (List.mem_cons_of_mem q h))]
    exact restoreScriptStep_fileMode_other s q p (fun h => hp (h ▸ List.mem_cons_self q qs))

lemma offPhase_fileMode_mem (paths : List String) :
    ∀ (s : Sys) (p : String), p ∈ paths → paths.Nodup →
      (phaseFold disableScriptStep paths s).1.fileMode p = offResult s p := by
  induction paths with
  | nil => intro s p hp _; cases hp
  | cons q qs ih =>
    intro s p hp hnd
    rw [phaseFold_cons]
    rcases List.mem_cons.mp hp with rfl | hp'
    · rw [offPhase_fileMode_notmem qs _ p (List.nodup_cons.mp hnd).1]
      exact disableScriptStep_fileMode_self s p
    · have hq : p ≠ q := by
        intro h
        exact (List.nodup_cons.mp hnd).1 (h ▸ hp')
      rw [ih _ p hp' (List.nodup_cons.mp hnd).2]
      exact offResult_congr p
        (disableScriptStep_fileMode_other s q p hq)
        (congrFun (disableScriptStep_nonFile s q).2.2.2.1 p)

lemma onPhase_fileMode_mem (paths : List String) :
    ∀ (s : Sys) (p : String), p ∈ paths → paths.Nodup →
      (phaseFold restoreScriptStep paths s).1.fileMode p = onResult s p := by
  induction paths with
  | nil => intro s p hp _; cases hp
  | cons q qs ih =>
    intro s p hp hnd
    rw [phaseFold_cons]
    rcases List.mem_cons.mp hp with rfl | hp'
    · rw [onPhase_fileMode_notmem qs _ p (List.nodup_cons.mp hnd).1]
      exact restoreScriptStep_fileMode_self s p
    · have hq : p ≠ q := by
        intro h
        exact (List.nodup_cons.mp hnd).1 (h ▸ hp')
      rw [ih _ p hp' (List.nodup_cons.mp hnd).2]
      exact onResult_congr p
        (restoreScriptStep_fileMode_other s q p hq)
        (congrFun (restoreScriptStep_nonFile s q).2.2.2.1 p)

lemma BusFrame_refl (s : Sys) : BusFrame s s :=
  ⟨rfl, rfl, rfl, rfl, rfl, rfl, rfl, rfl, rfl, rfl⟩

lemma BusFrame_trans {a b c : Sys} (h1 : BusFrame a b) (h2 : BusFrame b c) :
    BusFrame a c := by
  unfold BusFrame at *
  exact ⟨h1.1.trans h2.1, h1.2.1.trans h2.2.1, h1.2.2.1.trans h2.2.2.1,
    h1.2.2.2.1.trans h2.2.2.2.1, h1.2.2.2.2.1.trans h2.2.2.2.2.1,
    h1.2.2.2.2.2.1.trans h2.2.2.2.2.2.1, h1.2.2.2.2.2.2.1.trans h2.2.2.2.2.2.2.1,
    h1.2.2.2.2.2.2.2.1.trans h2.2.2.2.2.2.2.2.1,
    h1.2.2.2.2.2.2.2.2.1.trans h2.2.2.2.2.2.2.2.2.1,
    h1.2.2.2.2.2.2.2.2.2.trans h2.2.2.2.2.2.2.2.2.2⟩

lemma SvcFrame_of_nonFile {t s : Sys} (h : NonFileEq t s) : SvcFrame t s :=
  ⟨h.1, h.2.1, h.2.2.1, h.2.2.2.1, h.2.2.2.2.2.1, h.2.2.2.2.2.2.1,
   h.2.2.2.2.2.2.2.1, h.2.2.2.2.2.2.2.2.1, h.2.2.2.2.2.2.2.2.2⟩

lemma SvcFrame_trans {a b c : Sys} (h1 : SvcFrame a b) (h2 : SvcFrame b c) :
    SvcFrame a c := by
  unfold SvcFrame at *
  exact ⟨h1.1.trans h2.1, h1.2.1.trans h2.2.1, h1.2.2.1.trans h2.2.2.1,
    h1.2.2.2.1.trans h2.2.2.2.1, h1.2.2.2.2.1.trans h2.2.2.2.2.1,
    h1.2.2.2.2.2.1.trans h2.2.2.2.2.2.1, h1.2.2.2.2.2.2.1.trans h2.2.2.2.2.2.2.1,
    h1.2.2.2.2.2.2.2.1.trans h2.2.2.2.2.2.2.2.1,
    h1.2.2.2.2.2.2.2.2.trans h2.2.2.2.2.2.2.2.2⟩

lemma setStep_bus (v : String → Int) (t : Sys) (kp : String × String) (q : String) :
    (setStep v t kp).1.bus q
      = if t.busUp = true ∧ q = kp.2 then v kp.1 else t.bus q := by
  unfold setStep dbus_set
  by_cases hb : t.busUp = true
  · by_cases hq : q = kp.2 <;> simp [hb, hq]
  · simp [hb]

lemma setStep_frame (v : String → Int) (t : Sys) (kp : String × String) :
    BusFrame (setStep v t kp).1 t := by
  unfold BusFrame setStep dbus_set
  by_cases hb : t.busUp = true <;> simp [hb]

lemma setStep_evs (v : String → Int) (t : Sys) (kp : String × String) :
    (setStep v t kp).2
      = Ev.dbusSet kp.2 (v kp.1)
          :: (if t.busUp = true then []
              else [Ev.warn ("could not update " ++ kp.1)]) := by
  unfold setStep dbus_set
  by_cases hb : t.busUp = true <;> simp [hb]

lemma DBUS_SETTINGS_eq : DBUS_SETTINGS = [("BleSensors", blePath), ("Bluetooth", btPath)] := rfl

lemma settingsPhase_bus (v : String → Int) (s : Sys) (q : String) :
    (phaseFold (setStep v) DBUS_SETTINGS s).1.bus q
      = if s.busUp = true ∧ q = btPath then v "Bluetooth"
        else if s.busUp = true ∧ q = blePath then v "BleSensors"
        else s.bus q := by
  rw [DBUS_SETTINGS_eq]
  simp only [phaseFold_cons, phaseFold_nil]
  rw [setStep_bus, (setStep_frame v s ("BleSensors", blePath)).2.1, setStep_bus]

lemma settingsPhase_frame (v : String → Int) (s : Sys) :
    BusFrame (phaseFold (setStep v) DBUS_SETTINGS s).1 s := by
  rw [DBUS_SETTINGS_eq]
  simp only [phaseFold_cons, phaseFold_nil]
  exact BusFrame_trans (setStep_frame v _ ("Bluetooth", btPath))
    (setStep_frame v s ("BleSensors", blePath))

lemma settingsPhase_evs (v : String → Int) (s : Sys) :
    (phaseFold (setStep v) DBUS_SETTINGS s).2
      = (Ev.dbusSet blePath (v "BleSensors")
          :: (if s.busUp = true then [] else [Ev.warn "could not update BleSensors"]))
        ++ (Ev.dbusSet btPath (v "Bluetooth")
          :: (if s.busUp = true then [] else [Ev.warn "could not update Bluetooth"])) := by
  rw [DBUS_SETTINGS_eq]
  simp only [phaseFold_cons, phaseFold_nil]
  rw [setStep_evs, setStep_evs, (setStep_frame v s ("BleSensors", blePath)).2.1]
  simp

lemma save_settings_eq (s : Sys) :
    save_settings s
      = (if s.busUp = true then {s with stateFile := some (savedContent s)} else s,
         if s.busUp = true then [Ev.writeState (savedContent s)]
         else [Ev.warn "could not read current settings"]) := by
  cases hb : s.busUp
  · simp [save_settings, DBUS_SETTINGS, dbus_get, hb]
  · simp [save_settings, DBUS_SETTINGS, dbus_get, hb, savedContent, blePath, btPath]

lemma remountEnter_state (s : Sys) :
    (remountEnter s).1
      = if s.rootRO = true ∧ s.remountRwOk = true then {s with rootRO := false}
        else s := by
  unfold remountEnter
  by_cases h1 : s.rootRO = true <;> by_cases h2 : s.remountRwOk = true <;>
    simp [h1, h2]

lemma remountEnter_did (s : Sys) :
    (remountEnter s).2.1 = (s.rootRO && s.remountRwOk) := by
  unfold remountEnter
  by_cases h1 : s.rootRO = true <;> by_cases h2 : s.remountRwOk = true <;>
    simp [h1, h2]

lemma remountEnter_evs (s : Sys) :
    (remountEnter s).2.2
      = if s.rootRO = true then
          Ev.remountRw
            :: (if s.remountRwOk = true then []
                else [Ev.warn "failed to remount root read-write"])
        else [] := by
  unfold remountEnter
  by_cases h1 : s.rootRO = true <;> by_cases h2 : s.remountRwOk = true <;>
    simp [h1, h2]

lemma remountExit_state (did : Bool) (t : Sys) :
    (remountExit did t).1
      = if did = true ∧ t.remountRoOk = true then {t with rootRO := true}
        else t := by
  unfold remountExit
  by_cases h1 : did = true <;> by_cases h2 : t.remountRoOk = true <;>
    simp [h1, h2]

lemma remountExit_evs (did : Bool) (t : Sys) :
    (remountExit did t).2
      = if did = true then
          Ev.remountRo
            :: (if t.remountRoOk = true then []
                else [Ev.warn "failed to restore root to read-only"])
        else [] := by
  unfold remountExit
  by_cases h1 : did = true <;> by_cases h2 : t.remountRoOk = true <;>
    simp [h1, h2]

lemma stopSt_svcUp (s : Sys) (name n : String) :
    (stopSt s name).svcUp n = if n = name then false else s.svcUp n := by
  unfold stopSt
  by_cases h : s.svcUp name = true
  · by_cases hn : n = name <;> simp [h, hn]
  · have h' : s.svcUp name = false := by simpa using h
    by_cases hn : n = name <;> simp [h, h', hn]

lemma stopSt_frame (s : Sys) (name : String) : SvcFrame (stopSt s name) s := by
  unfold SvcFrame stopSt
  by_cases h : s.svcUp name = true <;> simp [h]

lemma stopSt_fileMode (s : Sys) (name : String) :
    (stopSt s name).fileMode = s.fileMode := by
  unfold stopSt
  split <;> rfl

lemma stopSt_chmodFails (s : Sys) (name : String) :
    (stopSt s name).chmodFails = s.chmodFails := by
  unfold stopSt
  split <;> rfl

lemma startSt_svcUp (t : Sys) (name n : String) :
    (startSt t name).svcUp n
      = if n = name ∧ t.svcDir name = true then true else t.svcUp n := by
  unfold startSt
  by_cases h : t.svcDir name = true
  · by_cases hn : n = name <;> simp [h, hn]
  · by_cases hn : n = name <;> simp [h, hn]

lemma startSt_frame (t : Sys) (name : String) : SvcFrame (startSt t name) t := by
  unfold SvcFrame startSt
  by_cases h : t.svcDir name = true <;> simp [h]

lemma startSt_fileMode (t : Sys) (name : String) :
    (startSt t name).fileMode = t.fileMode := by
  unfold startSt
  split <;> rfl

lemma disable_service_eq (s : Sys) (name : String) :
    disable_service s name
      = ((phaseFold disableScriptStep (all_scripts name) (stopSt s name)).1,
         (if s.svcUp name = true then [Ev.svcDown name] else [])
           ++ (phaseFold disableScriptStep (all_scripts name) (stopSt s name)).2) := by
  unfold disable_service stopSt
  by_cases h : s.svcUp name = true <;> simp [h]

lemma restore_service_eq (s : Sys) (name : String) :
    restore_service s name
      = (startSt (phaseFold restoreScriptStep (all_scripts name) s).1 name,
         (phaseFold restoreScriptStep (all_scripts name) s).2
           ++ (if (phaseFold restoreScriptStep (all_scripts name) s).1.svcDir name = true
               then [Ev.svcStart name] else [])) := by
  unfold restore_service startSt
  by_cases h : (phaseFold restoreScriptStep (all_scripts name) s).1.svcDir name = true <;>
    simp [h]

lemma disable_service_svcUp (s : Sys) (name n : String) :
    (disable_service s name).1.svcUp n = if n = name then false else s.svcUp n := by
  rw [disable_service_eq]
  rw [congrFun (offPhase_nonFile (all_scripts name) (stopSt s name)).2.2.2.2.1 n]
  exact stopSt_svcUp s name n

lemma disable_service_fileMode (s : Sys) (name : String) (p : String)
    (hnd : (all_scripts name).Nodup) :
    (disable_service s name).1.fileMode p
      = if p ∈ all_scripts name then offResult s p else s.fileMode p := by
  rw [disable_service_eq]
  by_cases hp : p ∈ all_scripts name
  · rw [if_pos hp, offPhase_fileMode_mem _ _ p hp hnd]
    exact offResult_congr p (congrFun (stopSt_fileMode s name) p)
      (congrFun (stopSt_chmodFails s name) p)
  · rw [if_neg hp, offPhase_fileMode_notmem _ _ p hp]
    exact congrFun (stopSt_fileMode s name) p

lemma disable_service_frame (s : Sys) (name : String) :
    SvcFrame (disable_service s name).1 s := by
  rw [disable_service_eq]
  exact SvcFrame_trans
    (SvcFrame_of_nonFile (offPhase_nonFile (all_scripts name) (stopSt s name)))
    (stopSt_frame s name)

lemma restore_service_svcUp (s : Sys) (name n : String) :
    (restore_service s name).1.svcUp n
      = if n = name ∧ s.svcDir name = true then true else s.svcUp n := by
  rw [restore_service_eq]
  rw [startSt_svcUp]
  rw [congrFun (onPhase_nonFile (all_scripts name) s).2.2.2.2.2.1 name,
      congrFun (onPhase_nonFile (all_scripts name) s).2.2.2.2.1 n]

lemma restore_service_fileMode (s : Sys) (name : String) (p : String)
    (hnd : (all_scripts name).Nodup) :
    (restore_service s name).1.fileMode p
      = if p ∈ all_scripts name then onResult s p else s.fileMode p := by
  rw [restore_service_eq]
  rw [congrFun (startSt_fileMode (phaseFold restoreScriptStep (all_scripts name) s).1 name) p]
  by_cases hp : p ∈ all_scripts name
  · rw [if_pos hp, onPhase_fileMode_mem _ _ p hp hnd]
  · rw [if_neg hp, onPhase_fileMode_notmem _ _ p hp]

lemma restore_service_frame (s : Sys) (name : String) :
    SvcFrame (restore_service s name).1 s := by
  rw [restore_service_eq]
  exact SvcFrame_trans (startSt_frame _ name)
    (SvcFrame_of_nonFile (onPhase_nonFile (all_scripts name) s))

lemma SERVICES_eq : SERVICES = ["dbus-ble-sensors", "vesmart-server"] := rfl

lemma all_scripts_nodup1 : (all_scripts "dbus-ble-sensors").Nodup := by decide

lemma all_scripts_nodup2 : (all_scripts "vesmart-server").Nodup := by decide

lemma all_scripts_disjoint12 :
    ∀ p ∈ all_scripts "dbus-ble-sensors", p ∉ all_scripts "vesmart-server" := by decide

lemma servicesD_eq (t : Sys) :
    phaseFold disable_service SERVICES t
      = ((disable_service (disable_service t "dbus-ble-sensors").1 "vesmart-server").1,
         (disable_service t "dbus-ble-sensors").2
           ++ (disable_service (disable_service t "dbus-ble-sensors").1 "vesmart-server").2) := by
  rw [SERVICES_eq]
  simp only [phaseFold_cons, phaseFold_nil]
  simp

lemma servicesR_eq (t : Sys) :
    phaseFold restore_service SERVICES t
      = ((restore_service (restore_service t "dbus-ble-sensors").1 "vesmart-server").1,
         (restore_service t "dbus-ble-sensors").2
           ++ (restore_service (restore_service t "dbus-ble-sensors").1 "vesmart-server").2) := by
  rw [SERVICES_eq]
  simp only [phaseFold_cons, phaseFold_nil]
  simp

lemma allKnownPaths_eq :
    allKnownPaths = all_scripts "dbus-ble-sensors" ++ all_scripts "vesmart-server" := rfl

lemma servicesD_fileMode (t : Sys) (p : String) :
    (phaseFold disable_service SERVICES t).1.fileMode p
      = if p ∈ allKnownPaths then offResult t p else t.fileMode p := by
  rw [servicesD_eq, allKnownPaths_eq]
  by_cases h1 : p ∈ all_scripts "dbus-ble-sensors"
  · have h2 : p ∉ all_scripts "vesmart-server" := all_scripts_disjoint12 p h1
    rw [disable_service_fileMode _ _ p all_scripts_nodup2, if_neg h2,
        disable_service_fileMode t _ p all_scripts_nodup1, if_pos h1,
        if_pos (List.mem_append_left _ h1)]
  · by_cases h2 : p ∈ all_scripts "vesmart-server"
    · rw [disable_service_fileMode _ _ p all_scripts_nodup2, if_pos h2,
          if_pos (List.mem_append_right _ h2)]
      exact offResult_congr p
        (by rw [disable_service_fileMode t _ p all_scripts_nodup1, if_neg h1])
        (congrFun (disable_service_frame t "dbus-ble-sensors").2.2.2.1 p)
    · rw [disable_service_fileMode _ _ p all_scripts_nodup2, if_neg h2,
          disable_service_fileMode t _ p all_scripts_nodup1, if_neg h1,
          if_neg (by
            intro hmem
            rcases List.mem_append.mp hmem with hm | hm
            · exact h1 hm
            · exact h2 hm)]

lemma servicesR_fileMode (t : Sys) (p : String) :
    (phaseFold restore_service SERVICES t).1.fileMode p
      = if p ∈ allKnownPaths then onResult t p else t.fileMode p := by
  rw [servicesR_eq, allKnownPaths_eq]
  by_cases h1 : p ∈ all_scripts "dbus-ble-sensors"
  · have h2 : p ∉ all_scripts "vesmart-server" := all_scripts_disjoint12 p h1
    rw [restore_service_fileMode _ _ p all_scripts_nodup2, if_neg h2,
        restore_service_fileMode t _ p all_scripts_nodup1, if_pos h1,
        if_pos (List.mem_append_left _ h1)]
  · by_cases h2 : p ∈ all_scripts "vesmart-server"
    · rw [restore_service_fileMode _ _ p all_scripts_nodup2, if_pos h2,
          if_pos (List.mem_append_right _ h2)]
      exact onResult_congr p
        (by rw [restore_service_fileMode t _ p all_scripts_nodup1, if_neg h1])
        (congrFun (restore_service_frame t "dbus-ble-sensors").2.2.2.1 p)
    · rw [restore_service_fileMode _ _ p all_scripts_nodup2, if_neg h2,
          restore_service_fileMode t _ p all_scripts_nodup1, if_neg h1,
          if_neg (by
            intro hmem
            rcases List.mem_append.mp hmem with hm | hm
            · exact h1 hm
            · exact h2 hm)]

lemma servicesD_svcUp (t : Sys) (n : String) :
    (phaseFold disable_service SERVICES t).1.svcUp n
      = if n = "dbus-ble-sensors" ∨ n = "vesmart-server" then false
        else t.svcUp n := by
  rw [servicesD_eq]
  rw [disable_service_svcUp, disable_service_svcUp]
  by_cases ha : n = "dbus-ble-sensors" <;> by_cases hb : n = "vesmart-server" <;>
    simp [ha, hb]

lemma servicesR_svcUp (t : Sys) (n : String) :
    (phaseFold restore_service SERVICES t).1.svcUp n
      = if (n = "dbus-ble-sensors" ∨ n = "vesmart-server") ∧ t.svcDir n = true
        then true else t.svcUp n := by
  rw [servicesR_eq]
  rw [restore_service_svcUp, restore_service_svcUp,
      congrFun (restore_service_frame t "dbus-ble-sensors").2.2.2.2.1 "vesmart-server"]
  by_cases ha : n = "dbus-ble-sensors" <;> by_cases hb : n = "vesmart-server"
  · rw [ha] at hb; exact absurd hb (by decide)
  · subst ha
    by_cases hd : t.svcDir "dbus-ble-sensors" = true <;> simp [hb, hd]
  · subst hb
    by_cases hd : t.svcDir "vesmart-server" = true <;> simp [ha, hd]
  · simp [ha, hb]

lemma servicesD_frame (t : Sys) :
    SvcFrame (phaseFold disable_service SERVICES t).1 t := by
  rw [servicesD_eq]
  apply SvcFrame_trans
  · exact disable_service_frame (disable_service t "dbus-ble-sensors").1 "vesmart-server"
  · exact disable_service_frame t "dbus-ble-sensors"

lemma servicesR_frame (t : Sys) :
    SvcFrame (phaseFold restore_service SERVICES t).1 t := by
  rw [servicesR_eq]
  apply SvcFrame_trans
  · exact restore_service_frame (restore_service t "dbus-ble-sensors").1 "vesmart-server"
  · exact restore_service_frame t "dbus-ble-sensors"

lemma remountEnter_nonRoot (s : Sys) : NonRootEq (remountEnter s).1 s := by
  rw [remountEnter_state]
  unfold NonRootEq
  split <;> exact ⟨rfl, rfl, rfl, rfl, rfl, rfl, rfl, rfl, rfl, rfl⟩

lemma remountExit_nonRoot (did : Bool) (t : Sys) :
    NonRootEq (remountExit did t).1 t := by
  rw [remountExit_state]
  unfold NonRootEq
  split <;> exact ⟨rfl, rfl, rfl, rfl, rfl, rfl, rfl, rfl, rfl, rfl⟩

lemma save_settings_frame (s : Sys) : StateFileFrame (save_settings s).1 s := by
  rw [save_settings_eq]
  unfold StateFileFrame
  split <;> exact ⟨rfl, rfl, rfl, rfl, rfl, rfl, rfl, rfl, rfl, rfl⟩

lemma save_settings_stateFile (s : Sys) :
    (save_settings s).1.stateFile
      = if s.busUp = true then some (savedContent s) else s.stateFile := by
  rw [save_settings_eq]
  by_cases hb : s.busUp = true <;> simp [hb]

lemma disableScriptStep_evs_shape (t : Sys) (p : String) :
    ∀ e ∈ (disableScriptStep t p).2, evIsChmod e = true ∨ evIsWarn e = true := by
  unfold disableScriptStep chmod_off
  intro e he
  by_cases hg : ((t.fileMode p).isSome && accessX t p) = true
  · rw [if_pos hg] at he
    cases h : t.fileMode p with
    | none => rw [h] at he; simp at he; simp [he, evIsWarn]
    | some m =>
      rw [h] at he
      by_cases hc : t.chmodFails p = true
      · simp [hc] at he
        simp [he, evIsWarn]
      · simp [hc] at he
        simp [he, evIsChmod]
  · rw [if_neg hg] at he
    simp at he

lemma restoreScriptStep_evs_shape (t : Sys) (p : String) :
    ∀ e ∈ (restoreScriptStep t p).2, evIsChmod e = true ∨ evIsWarn e = true := by
  unfold restoreScriptStep chmod_on
  intro e he
  by_cases hg : ((t.fileMode p).isSome && !accessX t p) = true
  · rw [if_pos hg] at he
    cases h : t.fileMode p with
    | none => rw [h] at he; simp at he; simp [he, evIsWarn]
    | some m =>
      rw [h] at he
      by_cases hc : t.chmodFails p = true
      · simp [hc] at he
        simp [he, evIsWarn]
      · simp [hc] at he
        simp [he, evIsChmod]
  · rw [if_neg hg] at he
    simp at he

lemma offPhase_evs_shape (paths : List String) :
    ∀ (t : Sys) (e : Ev), e ∈ (phaseFold disableScriptStep paths t).2 →
      evIsChmod e = true ∨ evIsWarn e = true := by
  induction paths with
  | nil => intro t e he; cases he
  | cons q qs ih =>
    intro t e he
    rw [phaseFold_cons] at he
    rcases List.mem_append.mp he with he | he
    · exact disableScriptStep_evs_shape t q e he
    · exact ih _ e he

lemma onPhase_evs_shape (paths : List String) :
    ∀ (t : Sys) (e : Ev), e ∈ (phaseFold restoreScriptStep paths t).2 →
      evIsChmod e = true ∨ evIsWarn e = true := by
  induction paths with
  | nil => intro t e he; cases he
  | cons q qs ih =>
    intro t e he
    rw [phaseFold_cons] at he
    rcases List.mem_append.mp he with he | he
    · exact restoreScriptStep_evs_shape t q e he
    · exact ih _ e he

lemma disableScriptStep_noop (t : Sys) (p : String)
    (h : ((t.fileMode p).isSome && accessX t p) = false) :
    disableScriptStep t p = (t, []) := by
  unfold disableScriptStep
  rw [if_neg (by simp [h])]

lemma restoreScriptStep_noop (t : Sys) (p : String)
    (h : ((t.fileMode p).isSome && !accessX t p) = false) :
    restoreScriptStep t p = (t, []) := by
  unfold restoreScriptStep
  rw [if_neg (by simp [h])]

lemma offPhase_noop (paths : List String) :
    ∀ t : Sys, (∀ p ∈ paths, ((t.fileMode p).isSome && accessX t p) = false) →
      phaseFold disableScriptStep paths t = (t, []) := by
  induction paths with
  | nil => intro t _; rfl
  | cons q qs ih =>
    intro t h
    rw [phaseFold_cons, disableScriptStep_noop t q (h q (by simp))]
    rw [ih t (fun p hp => h p (by simp [hp]))]
    rfl

lemma onPhase_noop (paths : List String) :
    ∀ t : Sys, (∀ p ∈ paths, ((t.fileMode p).isSome && !accessX t p) = false) →
      phaseFold restoreScriptStep paths t = (t, []) := by
  induction paths with
  | nil => intro t _; rfl
  | cons q qs ih =>
    intro t h
    rw [phaseFold_cons, restoreScriptStep_noop t q (h q (by simp))]
    rw [ih t (fun p hp => h p (by simp [hp]))]
    rfl

lemma disable_service_noop (t : Sys) (name : String)
    (h1 : t.svcUp name = false)
    (h2 : ∀ p ∈ all_scripts name, ((t.fileMode p).isSome && accessX t p) = false) :
    disable_service t name = (t, []) := by
  rw [disable_service_eq]
  have hstop : stopSt t name = t := by
    unfold stopSt
    rw [if_neg (by simp [h1])]
  rw [hstop, offPhase_noop _ t h2, if_neg (by simp [h1])]
  rfl

lemma restore_service_chmodless (t : Sys) (name : String)
    (h2 : ∀ p ∈ all_scripts name, ((t.fileMode p).isSome && !accessX t p) = false) :
    restore_service t name
      = (startSt t name, if t.svcDir name = true then [Ev.svcStart name] else []) := by
  rw [restore_service_eq, onPhase_noop _ t h2]
  rfl

lemma disableScriptStep_evs_warn (t : Sys) (p : String)
    (hg : accessX t p = true) (hc : t.chmodFails p = true) :
    (disableScriptStep t p).2 = [Ev.warn ("could not chmod " ++ p)] := by
  unfold disableScriptStep chmod_off
  cases h : t.fileMode p with
  | none =>
    have hfalse : accessX t p = false := by unfold accessX; rw [h]
    rw [hfalse] at hg
    cases hg
  | some m =>
    simp [h, hg, hc]

lemma restoreScriptStep_evs_warn (t : Sys) (p : String)
    (hf : (t.fileMode p).isSome = true) (hg : accessX t p = false)
    (hc : t.chmodFails p = true) :
    (restoreScriptStep t p).2 = [Ev.warn ("could not chmod " ++ p)] := by
  unfold restoreScriptStep chmod_on
  cases h : t.fileMode p with
  | none => rw [h] at hf; cases hf
  | some m =>
    simp [h, hg, hc]

lemma offPhase_warn_mem (paths : List String) :
    ∀ (t : Sys) (p : String), p ∈ paths → paths.Nodup →
      accessX t p = true → t.chmodFails p = true →
      Ev.warn ("could not chmod " ++ p) ∈ (phaseFold disableScriptStep paths t).2 := by
  induction paths with
  | nil => intro t p hp _ _ _; cases hp
  | cons q qs ih =>
    intro t p hp hnd hg hc
    rw [phaseFold_cons]
    rcases List.mem_cons.mp hp with rfl | hp'
    · rw [disableScriptStep_evs_warn t p hg hc]
      exact List.mem_append_left _ (by simp)
    · apply List.mem_append_right
      have hq : p ≠ q := fun h => (List.nodup_cons.mp hnd).1 (h ▸ hp')
      apply ih _ p hp' (List.nodup_cons.mp hnd).2
      · unfold accessX at hg ⊢
        rw [disableScriptStep_fileMode_other t q p hq]
        exact hg
      · rw [congrFun (disableScriptStep_nonFile t q).2.2.2.1 p]
        exact hc

lemma onPhase_warn_mem (paths : List String) :
    ∀ (t : Sys) (p : String), p ∈ paths → paths.Nodup →
      (t.fileMode p).isSome = true → accessX t p = false → t.chmodFails p = true →
      Ev.warn ("could not chmod " ++ p) ∈ (phaseFold restoreScriptStep paths t).2 := by
  induction paths with
  | nil => intro t p hp _ _ _ _; cases hp
  | cons q qs ih =>
    intro t p hp hnd hf hg hc
    rw [phaseFold_cons]
    rcases List.mem_cons.mp hp with rfl | hp'
    · rw [restoreScriptStep_evs_warn t p hf hg hc]
      exact List.mem_append_left _ (by simp)
    · apply List.mem_append_right
      have hq : p ≠ q := fun h => (List.nodup_cons.mp hnd).1 (h ▸ hp')
      apply ih _ p hp' (List.nodup_cons.mp hnd).2
      · rw [restoreScriptStep_fileMode_other t q p hq]
        exact hf
      · unfold accessX at hg ⊢
        rw [restoreScriptStep_fileMode_other t q p hq]
        exact hg
      · rw [congrFun (restoreScriptStep_nonFile t q).2.2.2.1 p]
        exact hc

lemma disable_service_svcDown_mem (t : Sys) (name n : String) :
    Ev.svcDown n ∈ (disable_service t name).2
      ↔ (n = name ∧ t.svcUp name = true) := by
  rw [disable_service_eq]
  rw [List.mem_append]
  constructor
  · intro h
    rcases h with h | h
    · by_cases hu : t.svcUp name = true
      · rw [if_pos hu] at h
        simp at h
        exact ⟨h, hu⟩
      · rw [if_neg hu] at h
        cases h
    · rcases offPhase_evs_shape _ _ _ h with hsh | hsh <;> cases hsh
  · intro ⟨h1, h2⟩
    left
    rw [if_pos h2, h1]
    simp

lemma restore_service_svcStart_mem (t : Sys) (name n : String) :
    Ev.svcStart n ∈ (restore_service t name).2
      ↔ (n = name ∧ t.svcDir name = true) := by
  rw [restore_service_eq]
  rw [List.mem_append]
  have hdir : (phaseFold restoreScriptStep (all_scripts name) t).1.svcDir name
      = t.svcDir name :=
    congrFun (onPhase_nonFile (all_scripts name) t).2.2.2.2.2.1 name
  constructor
  · intro h
    rcases h with h | h
    · rcases onPhase_evs_shape _ _ _ h with hsh | hsh <;> cases hsh
    · by_cases hd : (phaseFold restoreScriptStep (all_scripts name) t).1.svcDir name = true
      · rw [if_pos hd] at h
        simp at h
        exact ⟨h, hdir ▸ hd⟩
      · rw [if_neg hd] at h
        cases h
  · intro ⟨h1, h2⟩
    right
    rw [if_pos (hdir.trans h2 : _), h1]
    simp

lemma disable_service_chmod_warn_mem (t : Sys) (name p : String)
    (hnd : (all_scripts name).Nodup) (hp : p ∈ all_scripts name)
    (hg : accessX t p = true) (hc : t.chmodFails p = true) :
    Ev.warn ("could not chmod " ++ p) ∈ (disable_service t name).2 := by
  rw [disable_service_eq]
  apply List.mem_append_right
  apply offPhase_warn_mem _ _ p hp hnd
  · unfold accessX at hg ⊢
    rw [congrFun (stopSt_fileMode t name) p]
    exact hg
  · rw [congrFun (stopSt_chmodFails t name) p]
    exact hc

lemma restore_service_chmod_warn_mem (t : Sys) (name p : String)
    (hnd : (all_scripts name).Nodup) (hp : p ∈ all_scripts name)
    (hf : (t.fileMode p).isSome = true) (hg : accessX t p = false)
    (hc : t.chmodFails p = true) :
    Ev.warn ("could not chmod " ++ p) ∈ (restore_service t name).2 := by
  rw [restore_service_eq]
  apply List.mem_append_left
  exact onPhase_warn_mem _ t p hp hnd hf hg hc

lemma zeroSettings_frame (s : Sys) : BusFrame (zeroSettings s).1 s :=
  settingsPhase_frame (fun _ => 0) s

lemma zeroSettings_bus (s : Sys) (q : String) :
    (zeroSettings s).1.bus q
      = if s.busUp = true ∧ q = btPath then 0
        else if s.busUp = true ∧ q = blePath then 0
        else s.bus q :=
  settingsPhase_bus (fun _ => 0) s q

lemma zeroSettings_evs (s : Sys) :
    (zeroSettings s).2
      = (Ev.dbusSet blePath 0
          :: (if s.busUp = true then [] else [Ev.warn "could not update BleSensors"]))
        ++ (Ev.dbusSet btPath 0
          :: (if s.busUp = true then [] else [Ev.warn "could not update Bluetooth"])) :=
  settingsPhase_evs (fun _ => 0) s

lemma restoreSettings_frame (saved : List (String × Int)) (s : Sys) :
    BusFrame (restoreSettings saved s).1 s :=
  settingsPhase_frame (fun k => (saved.lookup k).getD 1) s

lemma restoreSettings_bus (saved : List (String × Int)) (s : Sys) (q : String) :
    (restoreSettings saved s).1.bus q
      = if s.busUp = true ∧ q = btPath then (saved.lookup "Bluetooth").getD 1
        else if s.busUp = true ∧ q = blePath then (saved.lookup "BleSensors").getD 1
        else s.bus q :=
  settingsPhase_bus (fun k => (saved.lookup k).getD 1) s q

lemma restoreSettings_evs (saved : List (String × Int)) (s : Sys) :
    (restoreSettings saved s).2
      = (Ev.dbusSet blePath ((saved.lookup "BleSensors").getD 1)
          :: (if s.busUp = true then [] else [Ev.warn "could not update BleSensors"]))
        ++ (Ev.dbusSet btPath ((saved.lookup "Bluetooth").getD 1)
          :: (if s.busUp = true then [] else [Ev.warn "could not update Bluetooth"])) :=
  settingsPhase_evs (fun k => (saved.lookup k).getD 1) s

lemma remountEnter_rootRO (s : Sys) :
    (remountEnter s).1.rootRO
      = if s.rootRO = true ∧ s.remountRwOk = true then false else s.rootRO := by
  rw [remountEnter_state]
  by_cases hc : s.rootRO = true ∧ s.remountRwOk = true <;> simp [hc]

lemma remountExit_rootRO (did : Bool) (t : Sys) :
    (remountExit did t).1.rootRO
      = if did = true ∧ t.remountRoOk = true then true else t.rootRO := by
  rw [remountExit_state]
  by_cases hc : did = true ∧ t.remountRoOk = true <;> simp [hc]

lemma disable_venus_unfold (s : Sys) (hv : s.venus = true) :
    disable_victron_ble s
      = ⟨(remountExit (remountEnter (zeroSettings (save_settings s).1).1).2.1
            (phaseFold disable_service SERVICES
              (remountEnter (zeroSettings (save_settings s).1).1).1).1).1,
         (save_settings s).2 ++ (zeroSettings (save_settings s).1).2
           ++ ((remountEnter (zeroSettings (save_settings s).1).1).2.2
               ++ (phaseFold disable_service SERVICES
                     (remountEnter (zeroSettings (save_settings s).1).1).1).2
               ++ (remountExit (remountEnter (zeroSettings (save_settings s).1).1).2.1
                     (phaseFold disable_service SERVICES
                       (remountEnter (zeroSettings (save_settings s).1).1).1).1).2),
         none⟩ := by
  unfold disable_victron_ble withRootRemount
  rw [if_neg (by simp [hv])]

lemma disable_fatal_unfold (s : Sys) (hv : s.venus = false) :
    disable_victron_ble s = ⟨s, [], some fatalMsg⟩ := by
  unfold disable_victron_ble
  rw [if_pos hv]

lemma disable_venus (s : Sys) (hv : s.venus = true) :
    (disable_victron_ble s).state.venus = s.venus := by
  rw [disable_venus_unfold s hv]
  rw [(remountExit_nonRoot _ _).1, (servicesD_frame _).1, (remountEnter_nonRoot _).1,
      (zeroSettings_frame _).1, (save_settings_frame s).1]

lemma disable_busUp (s : Sys) (hv : s.venus = true) :
    (disable_victron_ble s).state.busUp = s.busUp := by
  rw [disable_venus_unfold s hv]
  rw [(remountExit_nonRoot _ _).2.1, (servicesD_frame _).2.1,
      (remountEnter_nonRoot _).2.1, (zeroSettings_frame _).2.1,
      (save_settings_frame s).2.1]

lemma disable_chmodFails (s : Sys) (hv : s.venus = true) :
    (disable_victron_ble s).state.chmodFails = s.chmodFails := by
  rw [disable_venus_unfold s hv]
  rw [(remountExit_nonRoot _ _).2.2.2.2.1, (servicesD_frame _).2.2.2.1,
      (remountEnter_nonRoot _).2.2.2.2.1, (zeroSettings_frame _).2.2.2.1,
      (save_settings_frame s).2.2.2.2.1]

lemma disable_svcDir (s : Sys) (hv : s.venus = true) :
    (disable_victron_ble s).state.svcDir = s.svcDir := by
  rw [disable_venus_unfold s hv]
  rw [(remountExit_nonRoot _ _).2.2.2.2.2.2.1, (servicesD_frame _).2.2.2.2.1,
      (remountEnter_nonRoot _).2.2.2.2.2.2.1, (zeroSettings_frame _).2.2.2.2.2.1,
      (save_settings_frame s).2.2.2.2.2.2.1]

lemma disable_remountRwOk (s : Sys) (hv : s.venus = true) :
    (disable_victron_ble s).state.remountRwOk = s.remountRwOk := by
  rw [disable_venus_unfold s hv]
  rw [(remountExit_nonRoot _ _).2.2.2.2.2.2.2.1, (servicesD_frame _).2.2.2.2.2.2.1,
      (remountEnter_nonRoot _).2.2.2.2.2.2.2.1,
      (zeroSettings_frame _).2.2.2.2.2.2.2.1,
      (save_settings_frame s).2.2.2.2.2.2.2.2.1]

lemma disable_remountRoOk (s : Sys) (hv : s.venus = true) :
    (disable_victron_ble s).state.remountRoOk = s.remountRoOk := by
  rw [disable_venus_unfold s hv]
  rw [(remountExit_nonRoot _ _).2.2.2.2.2.2.2.2.1, (servicesD_frame _).2.2.2.2.2.2.2.1,
      (remountEnter_nonRoot _).2.2.2.2.2.2.2.2.1,
      (zeroSettings_frame _).2.2.2.2.2.2.2.2.1,
      (save_settings_frame s).2.2.2.2.2.2.2.2.2]

lemma disable_stateFile (s : Sys) (hv : s.venus = true) :
    (disable_victron_ble s).state.stateFile
      = if s.busUp = true then some (savedContent s) else s.stateFile := by
  rw [disable_venus_unfold s hv]
  rw [(remountExit_nonRoot _ _).2.2.2.2.2.2.2.2.2, (servicesD_frame _).2.2.2.2.2.2.2.2,
      (remountEnter_nonRoot _).2.2.2.2.2.2.2.2.2,
      (zeroSettings_frame _).2.2.2.2.2.2.2.2.2]
  exact save_settings_stateFile s

lemma disable_bus (s : Sys) (hv : s.venus = true) (q : String) :
    (disable_victron_ble s).state.bus q
      = if s.busUp = true ∧ (q = blePath ∨ q = btPath) then 0 else s.bus q := by
  rw [disable_venus_unfold s hv]
  rw [congrFun (remountExit_nonRoot _ _).2.2.1 q, congrFun (servicesD_frame _).2.2.1 q,
      congrFun (remountEnter_nonRoot _).2.2.1 q]
  rw [zeroSettings_bus]
  rw [(save_settings_frame s).2.1, congrFun (save_settings_frame s).2.2.1 q]
  by_cases hb : s.busUp = true <;> by_cases h1 : q = blePath <;> by_cases h2 : q = btPath <;>
    simp [hb, h1, h2]

lemma disable_svcUp (s : Sys) (hv : s.venus = true) (n : String) :
    (disable_victron_ble s).state.svcUp n
      = if n = "dbus-ble-sensors" ∨ n = "vesmart-server" then false
        else s.svcUp n := by
  rw [disable_venus_unfold s hv]
  rw [congrFun (remountExit_nonRoot _ _).2.2.2.2.2.1 n]
  rw [servicesD_svcUp]
  rw [congrFun (remountEnter_nonRoot _).2.2.2.2.2.1 n,
      congrFun (zeroSettings_frame _).2.2.2.2.1 n,
      congrFun (save_settings_frame s).2.2.2.2.2.1 n]

lemma disable_fileMode (s : Sys) (hv : s.venus = true) (p : String) :
    (disable_victron_ble s).state.fileMode p
      = if p ∈ allKnownPaths then offResult s p else s.fileMode p := by
  rw [disable_venus_unfold s hv]
  rw [congrFun (remountExit_nonRoot _ _).2.2.2.1 p]
  rw [servicesD_fileMode]
  have hfm : (remountEnter (zeroSettings (save_settings s).1).1).1.fileMode p
      = s.fileMode p := by
    rw [congrFun (remountEnter_nonRoot _).2.2.2.1 p,
        congrFun (zeroSettings_frame _).2.2.1 p,
        congrFun (save_settings_frame s).2.2.2.1 p]
  have hcf : (remountEnter (zeroSettings (save_settings s).1).1).1.chmodFails p
      = s.chmodFails p := by
    rw [congrFun (remountEnter_nonRoot _).2.2.2.2.1 p,
        congrFun (zeroSettings_frame _).2.2.2.1 p,
        congrFun (save_settings_frame s).2.2.2.2.1 p]
  rw [offResult_congr p hfm hcf, hfm]

lemma disable_rootRO (s : Sys) (hv : s.venus = true) :
    (disable_victron_ble s).state.rootRO
      = if s.rootRO = true ∧ s.remountRwOk = true ∧ s.remountRoOk = false
        then false else s.rootRO := by
  rw [disable_venus_unfold s hv]
  have hBro : (zeroSettings (save_settings s).1).1.rootRO = s.rootRO := by
    rw [(zeroSettings_frame _).2.2.2.2.2.2.1, (save_settings_frame s).2.2.2.2.2.2.2.1]
  have hBrw : (zeroSettings (save_settings s).1).1.remountRwOk = s.remountRwOk := by
    rw [(zeroSettings_frame _).2.2.2.2.2.2.2.1,
        (save_settings_frame s).2.2.2.2.2.2.2.2.1]
  have hDro : (phaseFold disable_service SERVICES
      (remountEnter (zeroSettings (save_settings s).1).1).1).1.remountRoOk
      = s.remountRoOk := by
    rw [(servicesD_frame _).2.2.2.2.2.2.2.1,
        (remountEnter_nonRoot _).2.2.2.2.2.2.2.2.1,
        (zeroSettings_frame _).2.2.2.2.2.2.2.2.1,
        (save_settings_frame s).2.2.2.2.2.2.2.2.2]
  rw [remountExit_rootRO, remountEnter_did, hBro, hBrw, hDro,
      (servicesD_frame _).2.2.2.2.2.1, remountEnter_rootRO, hBro, hBrw]
  by_cases h1 : s.rootRO = true <;> by_cases h2 : s.remountRwOk = true <;>
    by_cases h3 : s.remountRoOk = true <;>
    simp [h1, h2, h3]

lemma restore_fin_eq (E : Sys) :
    (match E.stateFile with
      | some _ => ({E with stateFile := none}, [Ev.removeState])
      | none => (E, ([] : List Ev)))
      = (if E.stateFile.isSome = true then {E with stateFile := none} else E,
         if E.stateFile.isSome = true then [Ev.removeState] else []) := by
  cases h : E.stateFile <;> simp [h]

lemma restore_venus_unfold0 (s : Sys) (hv : s.venus = true) :
    restore_victron_ble s
      = ⟨(match (remountExit
              (remountEnter (restoreSettings (load_saved_settings s) s).1).2.1
              (phaseFold restore_service SERVICES
                (remountEnter (restoreSettings (load_saved_settings s) s).1).1).1).1.stateFile with
          | some _ => ({(remountExit
              (remountEnter (restoreSettings (load_saved_settings s) s).1).2.1
              (phaseFold restore_service SERVICES
                (remountEnter (restoreSettings (load_saved_settings s) s).1).1).1).1 with stateFile := none}, [Ev.removeState])
          | none => ((remountExit
              (remountEnter (restoreSettings (load_saved_settings s) s).1).2.1
              (phaseFold restore_service SERVICES
                (remountEnter (restoreSettings (load_saved_settings s) s).1).1).1).1, ([] : List Ev))).1,
         (restoreSettings (load_saved_settings s) s).2
           ++ ((remountEnter (restoreSettings (load_saved_settings s) s).1).2.2
               ++ (phaseFold restore_service SERVICES
                     (remountEnter (restoreSettings (load_saved_settings s) s).1).1).2
               ++ (remountExit
                     (remountEnter (restoreSettings (load_saved_settings s) s).1).2.1
                     (phaseFold restore_service SERVICES
                       (remountEnter (restoreSettings (load_saved_settings s) s).1).1).1).2)
           ++ (match (remountExit
              (remountEnter (restoreSettings (load_saved_settings s) s).1).2.1
              (phaseFold restore_service SERVICES
                (remountEnter (restoreSettings (load_saved_settings s) s).1).1).1).1.stateFile with
          | some _ => ({(remountExit
              (remountEnter (restoreSettings (load_saved_settings s) s).1).2.1
              (phaseFold restore_service SERVICES
                (remountEnter (restoreSettings (load_saved_settings s) s).1).1).1).1 with stateFile := none}, [Ev.removeState])
          | none => ((remountExit
              (remountEnter (restoreSettings (load_saved_settings s) s).1).2.1
              (phaseFold restore_service SERVICES
                (remountEnter (restoreSettings (load_saved_settings s) s).1).1).1).1, ([] : List Ev))).2,
         none⟩ := by
  unfold restore_victron_ble withRootRemount
  rw [if_neg (by simp [hv])]

lemma restore_venus_unfold (s : Sys) (hv : s.venus = true) :
    restore_victron_ble s
      = ⟨(if (remountExit
              (remountEnter (restoreSettings (load_saved_settings s) s).1).2.1
              (phaseFold restore_service SERVICES
                (remountEnter (restoreSettings (load_saved_settings s) s).1).1).1).1.stateFile.isSome
              = true
          then {(remountExit
              (remountEnter (restoreSettings (load_saved_settings s) s).1).2.1
              (phaseFold restore_service SERVICES
                (remountEnter (restoreSettings (load_saved_settings s) s).1).1).1).1
              with stateFile := none}
          else (remountExit
              (remountEnter (restoreSettings (load_saved_settings s) s).1).2.1
              (phaseFold restore_service SERVICES
                (remountEnter (restoreSettings (load_saved_settings s) s).1).1).1).1),
         (restoreSettings (load_saved_settings s) s).2
           ++ ((remountEnter (restoreSettings (load_saved_settings s) s).1).2.2
               ++ (phaseFold restore_service SERVICES
                     (remountEnter (restoreSettings (load_saved_settings s) s).1).1).2
               ++ (remountExit
                     (remountEnter (restoreSettings (load_saved_settings s) s).1).2.1
                     (phaseFold restore_service SERVICES
                       (remountEnter (restoreSettings (load_saved_settings s) s).1).1).1).2)
           ++ (if (remountExit
                  (remountEnter (restoreSettings (load_saved_settings s) s).1).2.1
                  (phaseFold restore_service SERVICES
                    (remountEnter (restoreSettings (load_saved_settings s) s).1).1).1).1.stateFile.isSome
                  = true
               then [Ev.removeState] else []),
         none⟩ := by
  rw [restore_venus_unfold0 s hv, restore_fin_eq]

lemma restore_fatal_unfold (s : Sys) (hv : s.venus = false) :
    restore_victron_ble s = ⟨s, [], some fatalMsg⟩ := by
  unfold restore_victron_ble
  rw [if_pos hv]

lemma restoreE_stateFile (s : Sys) :
    (remountExit
        (remountEnter (restoreSettings (load_saved_settings s) s).1).2.1
        (phaseFold restore_service SERVICES
          (remountEnter (restoreSettings (load_saved_settings s) s).1).1).1).1.stateFile
      = s.stateFile := by
  rw [(remountExit_nonRoot _ _).2.2.2.2.2.2.2.2.2,
      (servicesR_frame _).2.2.2.2.2.2.2.2,
      (remountEnter_nonRoot _).2.2.2.2.2.2.2.2.2,
      (restoreSettings_frame _ _).2.2.2.2.2.2.2.2.2]

lemma restore_err_none (s : Sys) (hv : s.venus = true) :
    (restore_victron_ble s).err = none := by
  rw [restore_venus_unfold s hv]

lemma restore_stateFile (s : Sys) (hv : s.venus = true) :
    (restore_victron_ble s).state.stateFile = none := by
  rw [restore_venus_unfold s hv]
  have h2 := restoreE_stateFile s
  cases hss : s.stateFile with
  | some c0 => rw [hss] at h2; simp [h2]
  | none => rw [hss] at h2; simp [h2]

lemma restore_bus (s : Sys) (hv : s.venus = true) (q : String) :
    (restore_victron_ble s).state.bus q
      = if s.busUp = true ∧ q = btPath then vBt s
        else if s.busUp = true ∧ q = blePath then vBle s
        else s.bus q := by
  rw [restore_venus_unfold s hv]
  have hbase : (remountExit
      (remountEnter (restoreSettings (load_saved_settings s) s).1).2.1
      (phaseFold restore_service SERVICES
        (remountEnter (restoreSettings (load_saved_settings s) s).1).1).1).1.bus q
      = if s.busUp = true ∧ q = btPath then vBt s
        else if s.busUp = true ∧ q = blePath then vBle s
        else s.bus q := by
    rw [congrFun (remountExit_nonRoot _ _).2.2.1 q,
        congrFun (servicesR_frame _).2.2.1 q,
        congrFun (remountEnter_nonRoot _).2.2.1 q,
        restoreSettings_bus]
    rfl
  split <;> exact hbase

lemma restore_svcUp (s : Sys) (hv : s.venus = true) (n : String) :
    (restore_victron_ble s).state.svcUp n
      = if (n = "dbus-ble-sensors" ∨ n = "vesmart-server") ∧ s.svcDir n = true
        then true else s.svcUp n := by
  rw [restore_venus_unfold s hv]
  have hbase : (remountExit
      (remountEnter (restoreSettings (load_saved_settings s) s).1).2.1
      (phaseFold restore_service SERVICES
        (remountEnter (restoreSettings (load_saved_settings s) s).1).1).1).1.svcUp n
      = if (n = "dbus-ble-sensors" ∨ n = "vesmart-server") ∧ s.svcDir n = true
        then true else s.svcUp n := by
    rw [congrFun (remountExit_nonRoot _ _).2.2.2.2.2.1 n,
        servicesR_svcUp,
        congrFun (remountEnter_nonRoot _).2.2.2.2.2.2.1 n,
        congrFun (restoreSettings_frame _ _).2.2.2.2.2.1 n,
        congrFun (remountEnter_nonRoot _).2.2.2.2.2.1 n,
        congrFun (restoreSettings_frame _ _).2.2.2.2.1 n]
  split <;> exact hbase

lemma restore_fileMode (s : Sys) (hv : s.venus = true) (p : String) :
    (restore_victron_ble s).state.fileMode p
      = if p ∈ allKnownPaths then onResult s p else s.fileMode p := by
  rw [restore_venus_unfold s hv]
  have hfm : (remountEnter (restoreSettings (load_saved_settings s) s).1).1.fileMode p
      = s.fileMode p := by
    rw [congrFun (remountEnter_nonRoot _).2.2.2.1 p,
        congrFun (restoreSettings_frame _ _).2.2.1 p]
  have hcf : (remountEnter (restoreSettings (load_saved_settings s) s).1).1.chmodFails p
      = s.chmodFails p := by
    rw [congrFun (remountEnter_nonRoot _).2.2.2.2.1 p,
        congrFun (restoreSettings_frame _ _).2.2.2.1 p]
  have hbase : (remountExit
      (remountEnter (restoreSettings (load_saved_settings s) s).1).2.1
      (phaseFold restore_service SERVICES
        (remountEnter (restoreSettings (load_saved_settings s) s).1).1).1).1.fileMode p
      = if p ∈ allKnownPaths then onResult s p else s.fileMode p := by
    rw [congrFun (remountExit_nonRoot _ _).2.2.2.1 p, servicesR_fileMode,
        onResult_congr p hfm hcf, hfm]
  split <;> exact hbase

lemma accessX_congr {t s : Sys} (p : String) (h : t.fileMode p = s.fileMode p) :
    accessX t p = accessX s p := by
  unfold accessX
  rw [h]

lemma all_scripts_disjoint21 :
    ∀ p ∈ all_scripts "vesmart-server", p ∉ all_scripts "dbus-ble-sensors" := by decide

lemma disable_svcUp_chain (s : Sys) (m : String) :
    (remountEnter (zeroSettings (save_settings s).1).1).1.svcUp m = s.svcUp m := by
  rw [congrFun (remountEnter_nonRoot _).2.2.2.2.2.1 m,
      congrFun (zeroSettings_frame _).2.2.2.2.1 m,
      congrFun (save_settings_frame s).2.2.2.2.2.1 m]

lemma disable_fileMode_chain (s : Sys) (p : String) :
    (remountEnter (zeroSettings (save_settings s).1).1).1.fileMode p
      = s.fileMode p := by
  rw [congrFun (remountEnter_nonRoot _).2.2.2.1 p,
      congrFun (zeroSettings_frame _).2.2.1 p,
      congrFun (save_settings_frame s).2.2.2.1 p]

lemma disable_chmodFails_chain (s : Sys) (p : String) :
    (remountEnter (zeroSettings (save_settings s).1).1).1.chmodFails p
      = s.chmodFails p := by
  rw [congrFun (remountEnter_nonRoot _).2.2.2.2.1 p,
      congrFun (zeroSettings_frame _).2.2.2.1 p,
      congrFun (save_settings_frame s).2.2.2.2.1 p]

lemma disable_svcDown_iff (s : Sys) (hv : s.venus = true) (n : String)
    (hn : n = "dbus-ble-sensors" ∨ n = "vesmart-server") :
    (Ev.svcDown n ∈ (disable_victron_ble s).evs) ↔ s.svcUp n = true := by
  rw [disable_venus_unfold s hv]
  have hsave : Ev.svcDown n ∉ (save_settings s).2 := by
    rw [save_settings_eq]
    by_cases hb : s.busUp = true <;> simp [hb]
  have hzero : Ev.svcDown n ∉ (zeroSettings (save_settings s).1).2 := by
    rw [zeroSettings_evs]
    by_cases hb : (save_settings s).1.busUp = true <;> simp [hb]
  have henter : Ev.svcDown n ∉ (remountEnter (zeroSettings (save_settings s).1).1).2.2 := by
    rw [remountEnter_evs]
    by_cases h1 : (zeroSettings (save_settings s).1).1.rootRO = true <;>
      by_cases h2 : (zeroSettings (save_settings s).1).1.remountRwOk = true <;>
      simp [h1, h2]
  have hexit : Ev.svcDown n ∉
      (remountExit (remountEnter (zeroSettings (save_settings s).1).1).2.1
        (phaseFold disable_service SERVICES
          (remountEnter (zeroSettings (save_settings s).1).1).1).1).2 := by
    rw [remountExit_evs]
    by_cases h1 : (remountEnter (zeroSettings (save_settings s).1).1).2.1 = true <;>
      by_cases h2 : (phaseFold disable_service SERVICES
        (remountEnter (zeroSettings (save_settings s).1).1).1).1.remountRoOk = true <;>
      simp [h1, h2]
  have hUp2 : (disable_service (remountEnter (zeroSettings (save_settings s).1).1).1
      "dbus-ble-sensors").1.svcUp "vesmart-server"
      = (remountEnter (zeroSettings (save_settings s).1).1).1.svcUp "vesmart-server" := by
    rw [disable_service_svcUp]
    rw [if_neg (by decide)]
  have hserv : (Ev.svcDown n ∈ (phaseFold disable_service SERVICES
      (remountEnter (zeroSettings (save_settings s).1).1).1).2) ↔ s.svcUp n = true := by
    rw [servicesD_eq]
    simp only [List.mem_append, disable_service_svcDown_mem, hUp2,
      disable_svcUp_chain s]
    rcases hn with rfl | rfl
    · constructor
      · rintro (⟨_, h⟩ | ⟨hcontra, _⟩)
        · exact h
        · exact absurd hcontra (by decide)
      · intro h
        exact Or.inl ⟨rfl, h⟩
    · constructor
      · rintro (⟨hcontra, _⟩ | ⟨_, h⟩)
        · exact absurd hcontra (by decide)
        · exact h
      · intro h
        exact Or.inr ⟨rfl, h⟩
  simp [List.mem_append, hsave, hzero, henter, hexit, hserv]

lemma disable_warn_busdown (s : Sys) (hv : s.venus = true) (hb : s.busUp = false) :
    Ev.warn "could not read current settings" ∈ (disable_victron_ble s).evs := by
  rw [disable_venus_unfold s hv]
  apply List.mem_append_left
  apply List.mem_append_left
  rw [save_settings_eq]
  simp [hb]

lemma disable_warn_buswrite (s : Sys) (hv : s.venus = true) (hb : s.busUp = false) :
    Ev.warn "could not update BleSensors" ∈ (disable_victron_ble s).evs := by
  rw [disable_venus_unfold s hv]
  apply List.mem_append_left
  apply List.mem_append_right
  rw [zeroSettings_evs, (save_settings_frame s).2.1, hb]
  simp

lemma disable_warn_remount (s : Sys) (hv : s.venus = true)
    (h1 : s.rootRO = true) (h2 : s.remountRwOk = false) :
    Ev.warn "failed to remount root read-write" ∈ (disable_victron_ble s).evs := by
  rw [disable_venus_unfold s hv]
  apply List.mem_append_right
  apply List.mem_append_left
  apply List.mem_append_left
  rw [remountEnter_evs]
  have hro : (zeroSettings (save_settings s).1).1.rootRO = s.rootRO := by
    rw [(zeroSettings_frame _).2.2.2.2.2.2.1, (save_settings_frame s).2.2.2.2.2.2.2.1]
  have hrw : (zeroSettings (save_settings s).1).1.remountRwOk = s.remountRwOk := by
    rw [(zeroSettings_frame _).2.2.2.2.2.2.2.1,
        (save_settings_frame s).2.2.2.2.2.2.2.2.1]
  rw [hro, hrw, h1, h2]
  simp

lemma disable_warn_chmod (s : Sys) (hv : s.venus = true) (n p : String)
    (hn : n = "dbus-ble-sensors" ∨ n = "vesmart-server") (hp : p ∈ all_scripts n)
    (hg : accessX s p = true) (hc : s.chmodFails p = true) :
    Ev.warn ("could not chmod " ++ p) ∈ (disable_victron_ble s).evs := by
  rw [disable_venus_unfold s hv]
  apply List.mem_append_right
  apply List.mem_append_left
  apply List.mem_append_right
  rw [servicesD_eq]
  rcases hn with rfl | rfl
  · apply List.mem_append_left
    apply disable_service_chmod_warn_mem _ _ p all_scripts_nodup1 hp
    · rw [accessX_congr p (disable_fileMode_chain s p)]
      exact hg
    · rw [disable_chmodFails_chain s p]
      exact hc
  · apply List.mem_append_right
    have hnot1 : p ∉ all_scripts "dbus-ble-sensors" := all_scripts_disjoint21 p hp
    have hfm1 : (disable_service (remountEnter (zeroSettings (save_settings s).1).1).1
        "dbus-ble-sensors").1.fileMode p = s.fileMode p := by
      rw [disable_service_fileMode _ _ p all_scripts_nodup1, if_neg hnot1,
          disable_fileMode_chain s p]
    apply disable_service_chmod_warn_mem _ _ p all_scripts_nodup2 hp
    · rw [accessX_congr p hfm1]
      exact hg
    · rw [congrFun (disable_service_frame _ "dbus-ble-sensors").2.2.2.1 p,
          disable_chmodFails_chain s p]
      exact hc

lemma restore_service_evs_shape (t : Sys) (name : String) (e : Ev) :
    e ∈ (restore_service t name).2 →
      evIsChmod e = true ∨ evIsWarn e = true ∨ e = Ev.svcStart name := by
  rw [restore_service_eq]
  intro he
  rcases List.mem_append.mp he with he | he
  · rcases onPhase_evs_shape _ _ _ he with h | h
    · exact Or.inl h
    · exact Or.inr (Or.inl h)
  · by_cases hd : (phaseFold restoreScriptStep (all_scripts name) t).1.svcDir name = true
    · rw [if_pos hd] at he
      simp at he
      exact Or.inr (Or.inr he)
    · rw [if_neg hd] at he
      cases he

lemma restore_svcDir_chain (s : Sys) (m : String) :
    (remountEnter (restoreSettings (load_saved_settings s) s).1).1.svcDir m
      = s.svcDir m := by
  rw [congrFun (remountEnter_nonRoot _).2.2.2.2.2.2.1 m,
      congrFun (restoreSettings_frame _ _).2.2.2.2.2.1 m]

lemma restore_fileMode_chain (s : Sys) (p : String) :
    (remountEnter (restoreSettings (load_saved_settings s) s).1).1.fileMode p
      = s.fileMode p := by
  rw [congrFun (remountEnter_nonRoot _).2.2.2.1 p,
      congrFun (restoreSettings_frame _ _).2.2.1 p]

lemma restore_chmodFails_chain (s : Sys) (p : String) :
    (remountEnter (restoreSettings (load_saved_settings s) s).1).1.chmodFails p
      = s.chmodFails p := by
  rw [congrFun (remountEnter_nonRoot _).2.2.2.2.1 p,
      congrFun (restoreSettings_frame _ _).2.2.2.1 p]

lemma restore_removeState_iff (s : Sys) (hv : s.venus = true) :
    (Ev.removeState ∈ (restore_victron_ble s).evs) ↔ s.stateFile.isSome = true := by
  rw [restore_venus_unfold s hv]
  have hset : Ev.removeState ∉ (restoreSettings (load_saved_settings s) s).2 := by
    rw [restoreSettings_evs]
    by_cases hb : s.busUp = true <;> simp [hb]
  have henter : Ev.removeState ∉
      (remountEnter (restoreSettings (load_saved_settings s) s).1).2.2 := by
    rw [remountEnter_evs]
    by_cases h1 : (restoreSettings (load_saved_settings s) s).1.rootRO = true <;>
      by_cases h2 : (restoreSettings (load_saved_settings s) s).1.remountRwOk = true <;>
      simp [h1, h2]
  have hexit : Ev.removeState ∉
      (remountExit (remountEnter (restoreSettings (load_saved_settings s) s).1).2.1
        (phaseFold restore_service SERVICES
          (remountEnter (restoreSettings (load_saved_settings s) s).1).1).1).2 := by
    rw [remountExit_evs]
    by_cases h1 : (remountEnter (restoreSettings (load_saved_settings s) s).1).2.1 = true <;>
      by_cases h2 : (phaseFold restore_service SERVICES
        (remountEnter (restoreSettings (load_saved_settings s) s).1).1).1.remountRoOk = true <;>
      simp [h1, h2]
  have hserv : Ev.removeState ∉ (phaseFold restore_service SERVICES
      (remountEnter (restoreSettings (load_saved_settings s) s).1).1).2 := by
    rw [servicesR_eq]
    intro h
    rcases List.mem_append.mp h with h | h <;>
      rcases restore_service_evs_shape _ _ _ h with hx | hx | hx <;>
      cases hx
  rw [restoreE_stateFile]
  by_cases hss : s.stateFile.isSome = true <;>
    simp [List.mem_append, hset, henter, hexit, hserv, hss]

lemma restore_svcStart_iff (s : Sys) (hv : s.venus = true) (n : String)
    (hn : n = "dbus-ble-sensors" ∨ n = "vesmart-server") :
    (Ev.svcStart n ∈ (restore_victron_ble s).evs) ↔ s.svcDir n = true := by
  rw [restore_venus_unfold s hv]
  have hset : Ev.svcStart n ∉ (restoreSettings (load_saved_settings s) s).2 := by
    rw [restoreSettings_evs]
    by_cases hb : s.busUp = true <;> simp [hb]
  have henter : Ev.svcStart n ∉
      (remountEnter (restoreSettings (load_saved_settings s) s).1).2.2 := by
    rw [remountEnter_evs]
    by_cases h1 : (restoreSettings (load_saved_settings s) s).1.rootRO = true <;>
      by_cases h2 : (restoreSettings (load_saved_settings s) s).1.remountRwOk = true <;>
      simp [h1, h2]
  have hexit : Ev.svcStart n ∉
      (remountExit (remountEnter (restoreSettings (load_saved_settings s) s).1).2.1
        (phaseFold restore_service SERVICES
          (remountEnter (restoreSettings (load_saved_settings s) s).1).1).1).2 := by
    rw [remountExit_evs]
    by_cases h1 : (remountEnter (restoreSettings (load_saved_settings s) s).1).2.1 = true <;>
      by_cases h2 : (phaseFold restore_service SERVICES
        (remountEnter (restoreSettings (load_saved_settings s) s).1).1).1.remountRoOk = true <;>
      simp [h1, h2]
  have hdir2 : (restore_service (remountEnter (restoreSettings (load_saved_settings s) s).1).1
      "dbus-ble-sensors").1.svcDir "vesmart-server"
      = s.svcDir "vesmart-server" := by
    rw [congrFun (restore_service_frame _ "dbus-ble-sensors").2.2.2.2.1 "vesmart-server",
        restore_svcDir_chain s]
  have hserv : (Ev.svcStart n ∈ (phaseFold restore_service SERVICES
      (remountEnter (restoreSettings (load_saved_settings s) s).1).1).2)
      ↔ s.svcDir n = true := by
    rw [servicesR_eq]
    simp only [List.mem_append, restore_service_svcStart_mem, hdir2,
      restore_svcDir_chain s]
    rcases hn with rfl | rfl
    · constructor
      · rintro (⟨_, h⟩ | ⟨hcontra, _⟩)
        · exact h
        · exact absurd hcontra (by decide)
      · intro h
        exact Or.inl ⟨rfl, h⟩
    · constructor
      · rintro (⟨hcontra, _⟩ | ⟨_, h⟩)
        · exact absurd hcontra (by decide)
        · exact h
      · intro h
        exact Or.inr ⟨rfl, h⟩
  have hfin : Ev.svcStart n ∉
      (if (remountExit (remountEnter (restoreSettings (load_saved_settings s) s).1).2.1
          (phaseFold restore_service SERVICES
            (remountEnter (restoreSettings (load_saved_settings s) s).1).1).1).1.stateFile.isSome
          = true
        then [Ev.removeState] else []) := by
    split <;> simp
  simp [List.mem_append, hset, henter, hexit, hserv, hfin]

lemma restore_warn_buswrite (s : Sys) (hv : s.venus = true) (hb : s.busUp = false) :
    Ev.warn "could not update BleSensors" ∈ (restore_victron_ble s).evs := by
  rw [restore_venus_unfold s hv]
  apply List.mem_append_left
  apply List.mem_append_left
  rw [restoreSettings_evs, hb]
  simp

lemma restore_warn_remount (s : Sys) (hv : s.venus = true)
    (h1 : s.rootRO = true) (h2 : s.remountRwOk = false) :
    Ev.warn "failed to remount root read-write" ∈ (restore_victron_ble s).evs := by
  rw [restore_venus_unfold s hv]
  apply List.mem_append_left
  apply List.mem_append_right
  apply List.mem_append_left
  apply List.mem_append_left
  rw [remountEnter_evs]
  have hro : (restoreSettings (load_saved_settings s) s).1.rootRO = s.rootRO :=
    (restoreSettings_frame _ _).2.2.2.2.2.2.1
  have hrw : (restoreSettings (load_saved_settings s) s).1.remountRwOk = s.remountRwOk :=
    (restoreSettings_frame _ _).2.2.2.2.2.2.2.1
  rw [hro, hrw, h1, h2]
  simp

lemma restore_warn_chmod (s : Sys) (hv : s.venus = true) (n p : String)
    (hn : n = "dbus-ble-sensors" ∨ n = "vesmart-server") (hp : p ∈ all_scripts n)
    (hf : (s.fileMode p).isSome = true) (hg : accessX s p = false)
    (hc : s.chmodFails p = true) :
    Ev.warn ("could not chmod " ++ p) ∈ (restore_victron_ble s).evs := by
  rw [restore_venus_unfold s hv]
  apply List.mem_append_left
  apply List.mem_append_right
  apply List.mem_append_left
  apply List.mem_append_right
  rw [servicesR_eq]
  rcases hn with rfl | rfl
  · apply List.mem_append_left
    apply restore_service_chmod_warn_mem _ _ p all_scripts_nodup1 hp
    · rw [restore_fileMode_chain s p]
      exact hf
    · rw [accessX_congr p (restore_fileMode_chain s p)]
      exact hg
    · rw [restore_chmodFails_chain s p]
      exact hc
  · apply List.mem_append_right
    have hnot1 : p ∉ all_scripts "dbus-ble-sensors" := all_scripts_disjoint21 p hp
    have hfm1 : (restore_service (remountEnter (restoreSettings (load_saved_settings s) s).1).1
        "dbus-ble-sensors").1.fileMode p = s.fileMode p := by
      rw [restore_service_fileMode _ _ p all_scripts_nodup1, if_neg hnot1,
          restore_fileMode_chain s p]
    apply restore_service_chmod_warn_mem _ _ p all_scripts_nodup2 hp
    · rw [hfm1]
      exact hf
    · rw [accessX_congr p hfm1]
      exact hg
    · rw [congrFun (restore_service_frame _ "dbus-ble-sensors").2.2.2.1 p,
          restore_chmodFails_chain s p]
      exact hc

lemma execClear_land_execBits : execClear &&& execBits = 0 := by decide

lemma offMode_not_exec (m : Nat) : (m &&& execClear) &&& execBits = 0 := by
  rw [Nat.and_assoc, execClear_land_execBits]
  simp

lemma onMode_exec (m : Nat) : ((m ||| execBits) &&& execBits) ≠ 0 := by
  intro h
  have h0 : ((m ||| execBits) &&& execBits).testBit 0 = true := by
    rw [Nat.testBit_and, Nat.testBit_or]
    have hb : (execBits).testBit 0 = true := by decide
    simp [hb]
  rw [h] at h0
  simp [Nat.zero_testBit] at h0

lemma offResult_guard_false (s : Sys) (p : String) (hcf : s.chmodFails p = false)
    (t : Sys) (ht : t.fileMode p = offResult s p) :
    ((t.fileMode p).isSome && accessX t p) = false := by
  unfold accessX
  rw [ht]
  unfold offResult
  cases h : s.fileMode p with
  | none => simp
  | some m =>
    simp only [Option.map_some']
    by_cases hx : m &&& execBits = 0
    · have hxb : (m &&& execBits != 0) = false := by simp [bne_eq_false_iff_eq, hx]
      simp [hxb, hx]
    · have hxb : (m &&& execBits != 0) = true := by simpa using hx
      simp [hxb, hcf, bne_eq_false_iff_eq, offMode_not_exec m]

lemma onResult_guard_false (s : Sys) (p : String) (hcf : s.chmodFails p = false)
    (t : Sys) (ht : t.fileMode p = onResult s p) :
    ((t.fileMode p).isSome && !accessX t p) = false := by
  unfold accessX
  rw [ht]
  unfold onResult
  cases h : s.fileMode p with
  | none => simp
  | some m =>
    simp only [Option.map_some']
    by_cases hx : m &&& execBits = 0
    · have hxq : (m &&& execBits == 0) = true := by simpa using hx
      simp [hxq, hcf]
      exact onMode_exec m
    · have hxq : (m &&& execBits == 0) = false := by simpa using hx
      simp [hxq, hx]

lemma off_then_on_exec (s s1 s2 : Sys) (p : String)
    (h1 : s1.fileMode p = offResult s p) (hc1 : s1.chmodFails p = s.chmodFails p)
    (h2 : s2.fileMode p = onResult s1 p)
    (hg : accessX s p = true) : accessX s2 p = true := by
  cases h : s.fileMode p with
  | none =>
    unfold accessX at hg
    rw [h] at hg
    cases hg
  | some m =>
    have hg' : (m &&& execBits != 0) = true := by
      unfold accessX at hg
      rw [h] at hg
      exact hg
    by_cases hcf : s.chmodFails p = true
    · have hoff : offResult s p = some m := by
        unfold offResult
        rw [h]
        simp [hcf]
      have hon : onResult s1 p = some m := by
        unfold onResult
        rw [h1, hoff]
        simp only [Option.map_some']
        congr 1
        rw [hc1, hcf]
        simp
      unfold accessX
      rw [h2, hon]
      exact hg'
    · have hcb : s.chmodFails p = false := by simpa using hcf
      have hoff : offResult s p = some (m &&& execClear) := by
        unfold offResult
        rw [h]
        simp [hcb, hg']
        intro hz
        exfalso
        rw [hz] at hg'
        simp at hg'
      have hon : onResult s1 p = some ((m &&& execClear) ||| execBits) := by
        unfold onResult
        rw [h1, hoff]
        simp only [Option.map_some']
        congr 1
        rw [hc1, hcb]
        have hxq : ((m &&& execClear) &&& execBits == 0) = true := by
          simp [offMode_not_exec m]
        simp [hxq]
      unfold accessX
      rw [h2, hon]
      simpa [bne_iff_ne] using onMode_exec (m &&& execClear)

lemma settingsPhase_evs_class (v : String → Int) (t : Sys) :
    ∀ e ∈ (phaseFold (setStep v) DBUS_SETTINGS t).2,
      evIsChmod e = false ∧ evIsSvcDown e = false ∧ evIsRemoveState e = false := by
  rw [settingsPhase_evs]
  intro e he
  by_cases hb : t.busUp = true
  · simp [hb] at he
    rcases he with rfl | rfl <;> exact ⟨rfl, rfl, rfl⟩
  · simp [hb] at he
    rcases he with rfl | rfl | rfl | rfl <;> exact ⟨rfl, rfl, rfl⟩

lemma save_evs_class (s : Sys) :
    ∀ e ∈ (save_settings s).2,
      evIsChmod e = false ∧ evIsSvcDown e = false ∧ evIsRemoveState e = false := by
  rw [save_settings_eq]
  intro e he
  by_cases hb : s.busUp = true
  · simp [hb] at he
    simp [he, evIsChmod, evIsSvcDown, evIsRemoveState]
  · simp [hb] at he
    simp [he, evIsChmod, evIsSvcDown, evIsRemoveState]

lemma remountEnter_evs_class (s : Sys) :
    ∀ e ∈ (remountEnter s).2.2,
      evIsChmod e = false ∧ evIsSvcDown e = false ∧ evIsRemoveState e = false := by
  rw [remountEnter_evs]
  intro e he
  by_cases h1 : s.rootRO = true
  · by_cases h2 : s.remountRwOk = true
    · simp [h1, h2] at he
      simp [he, evIsChmod, evIsSvcDown, evIsRemoveState]
    · simp [h1, h2] at he
      rcases he with rfl | rfl <;> exact ⟨rfl, rfl, rfl⟩
  · simp [h1] at he

lemma remountExit_evs_class (did : Bool) (t : Sys) :
    ∀ e ∈ (remountExit did t).2,
      evIsChmod e = false ∧ evIsSvcDown e = false ∧ evIsRemoveState e = false := by
  rw [remountExit_evs]
  intro e he
  by_cases h1 : did = true
  · by_cases h2 : t.remountRoOk = true
    · simp [h1, h2] at he
      simp [he, evIsChmod, evIsSvcDown, evIsRemoveState]
    · simp [h1, h2] at he
      rcases he with rfl | rfl <;> exact ⟨rfl, rfl, rfl⟩
  · simp [h1] at he

lemma disable_second_shape (s : Sys) (hv : s.venus = true)
    (hall : ∀ p ∈ allKnownPaths, ((s.fileMode p).isSome && accessX s p) = false)
    (h1 : s.svcUp "dbus-ble-sensors" = false)
    (h2 : s.svcUp "vesmart-server" = false) :
    ∀ e ∈ (disable_victron_ble s).evs,
      evIsChmod e = false ∧ evIsSvcDown e = false := by
  rw [disable_venus_unfold s hv]
  have hgC : ∀ p ∈ allKnownPaths,
      (((remountEnter (zeroSettings (save_settings s).1).1).1.fileMode p).isSome
        && accessX (remountEnter (zeroSettings (save_settings s).1).1).1 p) = false := by
    intro p hp
    rw [disable_fileMode_chain s p, accessX_congr p (disable_fileMode_chain s p)]
    exact hall p hp
  have hds1 : disable_service (remountEnter (zeroSettings (save_settings s).1).1).1
      "dbus-ble-sensors"
      = ((remountEnter (zeroSettings (save_settings s).1).1).1, []) := by
    apply disable_service_noop
    · rw [disable_svcUp_chain s]
      exact h1
    · intro p hp
      exact hgC p (by rw [allKnownPaths_eq]; exact List.mem_append_left _ hp)
  have hds2 : disable_service (remountEnter (zeroSettings (save_settings s).1).1).1
      "vesmart-server"
      = ((remountEnter (zeroSettings (save_settings s).1).1).1, []) := by
    apply disable_service_noop
    · rw [disable_svcUp_chain s]
      exact h2
    · intro p hp
      exact hgC p (by rw [allKnownPaths_eq]; exact List.mem_append_right _ hp)
  have hphase : phaseFold disable_service SERVICES
      (remountEnter (zeroSettings (save_settings s).1).1).1
      = ((remountEnter (zeroSettings (save_settings s).1).1).1, []) := by
    rw [servicesD_eq]
    simp [hds1, hds2]
  rw [hphase]
  intro e he
  simp only [List.mem_append, List.not_mem_nil, or_false] at he
  rcases he with (he | he) | (he | he)
  · have := save_evs_class s e he
    exact ⟨this.1, this.2.1⟩
  · have := settingsPhase_evs_class (fun _ => 0) (save_settings s).1 e he
    exact ⟨this.1, this.2.1⟩
  · have := remountEnter_evs_class (zeroSettings (save_settings s).1).1 e he
    exact ⟨this.1, this.2.1⟩
  · have := remountExit_evs_class _ _ e he
    exact ⟨this.1, this.2.1⟩

lemma restore_second_shape (s : Sys) (hv : s.venus = true)
    (hall : ∀ p ∈ allKnownPaths, ((s.fileMode p).isSome && !accessX s p) = false)
    (hsf : s.stateFile = none) :
    ∀ e ∈ (restore_victron_ble s).evs,
      evIsChmod e = false ∧ evIsRemoveState e = false := by
  rw [restore_venus_unfold s hv]
  have hgC : ∀ p ∈ allKnownPaths,
      (((remountEnter (restoreSettings (load_saved_settings s) s).1).1.fileMode p).isSome
        && !accessX (remountEnter (restoreSettings (load_saved_settings s) s).1).1 p)
        = false := by
    intro p hp
    rw [restore_fileMode_chain s p, accessX_congr p (restore_fileMode_chain s p)]
    exact hall p hp
  have hrs1 : restore_service (remountEnter (restoreSettings (load_saved_settings s) s).1).1
      "dbus-ble-sensors"
      = (startSt (remountEnter (restoreSettings (load_saved_settings s) s).1).1
          "dbus-ble-sensors",
         if (remountEnter (restoreSettings (load_saved_settings s) s).1).1.svcDir
            "dbus-ble-sensors" = true
         then [Ev.svcStart "dbus-ble-sensors"] else []) := by
    apply restore_service_chmodless
    intro p hp
    exact hgC p (by rw [allKnownPaths_eq]; exact List.mem_append_left _ hp)
  have hfm1 : ∀ p : String,
      (startSt (remountEnter (restoreSettings (load_saved_settings s) s).1).1
        "dbus-ble-sensors").fileMode p
      = (remountEnter (restoreSettings (load_saved_settings s) s).1).1.fileMode p :=
    fun p => congrFun (startSt_fileMode _ "dbus-ble-sensors") p
  have hrs2 : restore_service
      (startSt (remountEnter (restoreSettings (load_saved_settings s) s).1).1
        "dbus-ble-sensors") "vesmart-server"
      = (startSt (startSt (remountEnter (restoreSettings (load_saved_settings s) s).1).1
          "dbus-ble-sensors") "vesmart-server",
         if (startSt (remountEnter (restoreSettings (load_saved_settings s) s).1).1
            "dbus-ble-sensors").svcDir "vesmart-server" = true
         then [Ev.svcStart "vesmart-server"] else []) := by
    apply restore_service_chmodless
    intro p hp
    rw [hfm1 p, accessX_congr p (hfm1 p)]
    exact hgC p (by rw [allKnownPaths_eq]; exact List.mem_append_right _ hp)
  rw [servicesR_eq, hrs1]
  simp only [hrs2]
  have hsfE : (remountExit (remountEnter (restoreSettings (load_saved_settings s) s).1).2.1
      (startSt (startSt (remountEnter (restoreSettings (load_saved_settings s) s).1).1
        "dbus-ble-sensors") "vesmart-server")).1.stateFile = none := by
    rw [(remountExit_nonRoot _ _).2.2.2.2.2.2.2.2.2,
        (startSt_frame _ _).2.2.2.2.2.2.2.2,
        (startSt_frame _ _).2.2.2.2.2.2.2.2,
        (remountEnter_nonRoot _).2.2.2.2.2.2.2.2.2,
        (restoreSettings_frame _ _).2.2.2.2.2.2.2.2.2, hsf]
  rw [hsfE]
  intro e he
  simp only [List.mem_append, Option.isSome_none, Bool.false_eq_true, if_false,
    List.not_mem_nil, or_false] at he
  rcases he with he | ((he | (he | he)) | he)
  · have := settingsPhase_evs_class (fun k => ((load_saved_settings s).lookup k).getD 1) s e he
    exact ⟨this.1, this.2.2⟩
  · have := remountEnter_evs_class (restoreSettings (load_saved_settings s) s).1 e he
    exact ⟨this.1, this.2.2⟩
  · by_cases hd : (remountEnter (restoreSettings (load_saved_settings s) s).1).1.svcDir
        "dbus-ble-sensors" = true
    · rw [if_pos hd] at he
      simp at he
      simp [he, evIsChmod, evIsRemoveState]
    · rw [if_neg hd] at he
      cases he
  · by_cases hd : (startSt (remountEnter (restoreSettings (load_saved_settings s) s).1).1
        "dbus-ble-sensors").svcDir "vesmart-server" = true
    · rw [if_pos hd] at he
      simp at he
      simp [he, evIsChmod, evIsRemoveState]
    · rw [if_neg hd] at he
      cases he
  · have := remountExit_evs_class _ _ e he
    exact ⟨this.1, this.2.2⟩

lemma offResult_access_false (s t : Sys) (p : String)
    (ht : t.fileMode p = offResult s p) (hcf : s.chmodFails p = false) :
    accessX t p = false := by
  have h := offResult_guard_false s p hcf t ht
  cases hm : t.fileMode p with
  | none =>
    unfold accessX
    rw [hm]
  | some m =>
    rw [hm] at h
    simpa using h

lemma onResult_access_true (s t : Sys) (p : String)
    (ht : t.fileMode p = onResult s p) (hf : (s.fileMode p).isSome = true)
    (hcf : s.chmodFails p = false) :
    accessX t p = true := by
  unfold accessX
  rw [ht]
  unfold onResult
  cases h : s.fileMode p with
  | none => rw [h] at hf; cases hf
  | some m =>
    simp only [Option.map_some']
    by_cases hx : m &&& execBits = 0
    · have hxq : (m &&& execBits == 0) = true := by simpa using hx
      simp only [hxq, hcf, Bool.not_false, Bool.and_true, if_pos trivial, if_true]
      simpa [bne_iff_ne] using onMode_exec m
    · have hxq : (m &&& execBits == 0) = false := by simpa using hx
      simp only [hxq, Bool.false_and, Bool.false_eq_true, if_false]
      simpa [bne_iff_ne] using hx

lemma restore_venus (s : Sys) (hv : s.venus = true) :
    (restore_victron_ble s).state.venus = s.venus := by
  rw [restore_venus_unfold s hv]
  have hbase : (remountExit
      (remountEnter (restoreSettings (load_saved_settings s) s).1).2.1
      (phaseFold restore_service SERVICES
        (remountEnter (restoreSettings (load_saved_settings s) s).1).1).1).1.venus
      = s.venus := by
    rw [(remountExit_nonRoot _ _).1, (servicesR_frame _).1, (remountEnter_nonRoot _).1,
        (restoreSettings_frame _ _).1]
  split <;> exact hbase

/-! ### The claims -/

/-- C8: the persisted state file consists of `KEY=INTEGER` lines, and
loading a file written by `_save_settings` recovers exactly the saved
key-to-integer mapping: for every dict whose keys are free of the format's
special characters (as the two setting names are) and pairwise distinct,
writing then parsing is the identity, for all integer values. -/
theorem claim_C8_roundtrip (vals : List (String × Int))
    (h1 : ∀ kv ∈ vals, ∀ c ∈ kv.1.data, pyIsSpace c = false ∧ c ≠ '=' ∧ c ≠ '\n')
    (h2 : (vals.map Prod.fst).Nodup) :
    loadContent (serializeSettings vals) = vals :=
  roundtrip_general vals h1 h2

theorem claim_C8_witness :
    loadContent (serializeSettings [("BleSensors", (7 : Int)), ("Bluetooth", (-2 : Int))])
      = [("BleSensors", 7), ("Bluetooth", -2)] :=
  claim_C8_roundtrip _ (by decide) (by decide)

/-- C9: `_load_saved_settings` is total on arbitrary file content, and a
line without an `=` or with a non-integer value part is silently skipped:
parsing any content gives the same dict as parsing only its well-formed
lines. -/
theorem claim_C9_malformed_skipped (content : String) :
    loadContent content
      = parseLines ((splitLines content.data).filter lineParses) := by
  unfold loadContent parseLines
  exact parseLines_skips (splitLines content.data) []

/-- C10: on a path where `os.chmod` succeeds, `_chmod_off` stores
`mode & ~0o111` and `_chmod_on` stores `mode | 0o111`: the three execute
bits (0, 3, 6) are cleared respectively set, and every other bit of the
32-bit `st_mode` is left unchanged by either operation. -/
theorem claim_C10_chmod_bits (s : Sys) (p : String) (m : Nat)
    (hm : s.fileMode p = some m) (hc : s.chmodFails p = false)
    (hw : m < 2 ^ 32) :
    (chmod_off s p).1.fileMode p = some (m &&& execClear)
    ∧ (chmod_on s p).1.fileMode p = some (m ||| execBits)
    ∧ (∀ i : Nat, (i = 0 ∨ i = 3 ∨ i = 6) →
        (m &&& execClear).testBit i = false ∧ (m ||| execBits).testBit i = true)
    ∧ (∀ i : Nat, ¬(i = 0 ∨ i = 3 ∨ i = 6) →
        (m &&& execClear).testBit i = m.testBit i
        ∧ (m ||| execBits).testBit i = m.testBit i) := by
  refine ⟨?_, ?_, ?_, ?_⟩
  · unfold chmod_off
    rw [hm]
    simp [hc]
  · unfold chmod_on
    rw [hm]
    simp [hc]
  · intro i hi
    rcases hi with rfl | rfl | rfl
    · exact ⟨by rw [Nat.testBit_and]; simp [show Nat.testBit execClear 0 = false from by decide],
             by rw [Nat.testBit_or]; simp [show Nat.testBit execBits 0 = true from by decide]⟩
    · exact ⟨by rw [Nat.testBit_and]; simp [show Nat.testBit execClear 3 = false from by decide],
             by rw [Nat.testBit_or]; simp [show Nat.testBit execBits 3 = true from by decide]⟩
    · exact ⟨by rw [Nat.testBit_and]; simp [show Nat.testBit execClear 6 = false from by decide],
             by rw [Nat.testBit_or]; simp [show Nat.testBit execBits 6 = true from by decide]⟩
  · intro i hi
    by_cases h32 : i < 32
    · have hcl : execClear.testBit i = true := by
        interval_cases i <;> revert hi <;> decide
      have hbits : execBits.testBit i = false := by
        interval_cases i <;> revert hi <;> decide
      exact ⟨by rw [Nat.testBit_and, hcl]; simp,
             by rw [Nat.testBit_or, hbits]; simp⟩
    · have hge : 32 ≤ i := Nat.le_of_not_lt h32
      have hpow : (2 : Nat) ^ 32 ≤ 2 ^ i := Nat.pow_le_pow_right (by norm_num) hge
      have hmb : m.testBit i = false :=
        Nat.testBit_lt_two_pow (lt_of_lt_of_le hw hpow)
      have hcl : execClear.testBit i = false :=
        Nat.testBit_lt_two_pow (lt_of_lt_of_le (by decide) hpow)
      have hbits : execBits.testBit i = false :=
        Nat.testBit_lt_two_pow (lt_of_lt_of_le (by decide) hpow)
      exact ⟨by rw [Nat.testBit_and, hmb, hcl]; rfl,
             by rw [Nat.testBit_or, hmb, hbits]; rfl⟩

theorem claim_C10_witness :
    (chmod_off wsBase "/service/dbus-ble-sensors/run").1.fileMode
        "/service/dbus-ble-sensors/run" = some (0o744 &&& execClear)
    ∧ (chmod_on wsBase "/service/dbus-ble-sensors/run").1.fileMode
        "/service/dbus-ble-sensors/run" = some (0o744 ||| execBits) := by
  have h := claim_C10_chmod_bits wsBase "/service/dbus-ble-sensors/run" 0o744
    (by decide) rfl (by decide)
  exact ⟨h.1, h.2.1⟩

/-- C7: when no state file exists at restore time (no prior disable) and the
settings bus is reachable, `restore_victron_ble` writes the default enabled
value 1 to both settings. -/
theorem claim_C7_default_enabled (s : Sys) (hv : s.venus = true)
    (hb : s.busUp = true) (hsf : s.stateFile = none) :
    (restore_victron_ble s).state.bus blePath = 1
    ∧ (restore_victron_ble s).state.bus btPath = 1 := by
  have hload : load_saved_settings s = [] := by
    unfold load_saved_settings
    rw [hsf]
  have hv1 : vBle s = 1 := by unfold vBle; rw [hload]; rfl
  have hv2 : vBt s = 1 := by unfold vBt; rw [hload]; rfl
  constructor
  · rw [restore_bus s hv blePath,
        if_neg (fun h => absurd h.2 (by decide)), if_pos ⟨hb, rfl⟩, hv1]
  · rw [restore_bus s hv btPath, if_pos ⟨hb, rfl⟩, hv2]

theorem claim_C7_witness :
    (restore_victron_ble wsBase).state.bus blePath = 1
    ∧ (restore_victron_ble wsBase).state.bus btPath = 1 :=
  claim_C7_default_enabled wsBase rfl rfl rfl

/-- C3 (counterexample to the claim as stated): when the closing
`mount -o remount,ro /` fails, the block only warns and the root stays
read-write, so the mount mode is not restored to read-only on that exit
path, here a normal (non-error) exit of `disable_victron_ble`. -/
theorem claim_C3_counterexample :
    wsRoFail.rootRO = true
    ∧ (disable_victron_ble wsRoFail).err = none
    ∧ (disable_victron_ble wsRoFail).state.rootRO = false := by
  refine ⟨rfl, ?_, ?_⟩
  · rw [disable_venus_unfold wsRoFail rfl]
  · rw [disable_rootRO wsRoFail rfl]
    decide

/-- C3 (amended): the `__exit__` step of the scoped remount always executes
after the block's body, also when the body reports an error, and the error
is still propagated; when the root was read-only on entry and both remount
commands succeed, the root is read-only again after the block on every exit
path. -/
theorem claim_C3_scoped_remount (body : Sys → BRes) (s : Sys)
    (hb : ∀ t : Sys, (body t).state.remountRoOk = t.remountRoOk)
    (h1 : s.rootRO = true) (h2 : s.remountRwOk = true) (h3 : s.remountRoOk = true) :
    (withRootRemount body s).state.rootRO = true
    ∧ (withRootRemount body s).err = (body (remountEnter s).1).err
    ∧ Ev.remountRo ∈ (withRootRemount body s).evs := by
  have hdid : (remountEnter s).2.1 = true := by
    rw [remountEnter_did, h1, h2]
    rfl
  have hro : (body (remountEnter s).1).state.remountRoOk = true := by
    rw [hb, (remountEnter_nonRoot s).2.2.2.2.2.2.2.2.1, h3]
  refine ⟨?_, rfl, ?_⟩
  · show (remountExit (remountEnter s).2.1 (body (remountEnter s).1).state).1.rootRO = true
    rw [remountExit_rootRO, hdid, hro]
    simp
  · show Ev.remountRo ∈ (remountEnter s).2.2
      ++ (body (remountEnter s).1).evs
      ++ (remountExit (remountEnter s).2.1 (body (remountEnter s).1).state).2
    apply List.mem_append_right
    rw [remountExit_evs, hdid, hro]
    simp

theorem claim_C3_witness :
    (withRootRemount bodyBoom wsBase).state.rootRO = true
    ∧ (withRootRemount bodyBoom wsBase).err = some "inner error"
    ∧ Ev.remountRo ∈ (withRootRemount bodyBoom wsBase).evs := by
  have h := claim_C3_scoped_remount bodyBoom wsBase (fun t => rfl) rfl rfl rfl
  exact ⟨h.1, h.2.1.trans rfl, h.2.2⟩

/-- C4: the only fatal error of both operations is the host not being
Venus OS (`err` is the `SystemExit` exactly when the Venus check fails, and
then nothing else ran); a failed bus read, a failed bus write, a failed
read-write remount, and a failed chmod on an individual path each put a
warning in the trace while the operation still finishes with `err = none`
and the service pass still runs. -/
theorem claim_C4_failure_policy (s : Sys) :
    ((disable_victron_ble s).err = none ↔ s.venus = true)
    ∧ ((restore_victron_ble s).err = none ↔ s.venus = true)
    ∧ (s.venus = false → disable_victron_ble s = ⟨s, [], some fatalMsg⟩
        ∧ restore_victron_ble s = ⟨s, [], some fatalMsg⟩)
    ∧ (s.venus = true → s.busUp = false →
        Ev.warn "could not read current settings" ∈ (disable_victron_ble s).evs
        ∧ Ev.warn "could not update BleSensors" ∈ (disable_victron_ble s).evs
        ∧ Ev.warn "could not update BleSensors" ∈ (restore_victron_ble s).evs)
    ∧ (s.venus = true → s.rootRO = true → s.remountRwOk = false →
        Ev.warn "failed to remount root read-write" ∈ (disable_victron_ble s).evs
        ∧ Ev.warn "failed to remount root read-write" ∈ (restore_victron_ble s).evs)
    ∧ (s.venus = true → ∀ n p, (n = "dbus-ble-sensors" ∨ n = "vesmart-server") →
        p ∈ all_scripts n → s.chmodFails p = true →
        (accessX s p = true →
          Ev.warn ("could not chmod " ++ p) ∈ (disable_victron_ble s).evs)
        ∧ ((s.fileMode p).isSome = true → accessX s p = false →
          Ev.warn ("could not chmod " ++ p) ∈ (restore_victron_ble s).evs))
    ∧ (s.venus = true → ∀ n, (n = "dbus-ble-sensors" ∨ n = "vesmart-server") →
        (disable_victron_ble s).state.svcUp n = false) := by
  refine ⟨?_, ?_, ?_, ?_, ?_, ?_, ?_⟩
  · by_cases hv : s.venus = true
    · rw [disable_venus_unfold s hv]
      simp [hv]
    · have hvf : s.venus = false := by simpa using hv
      rw [disable_fatal_unfold s hvf]
      simp [hvf]
  · by_cases hv : s.venus = true
    · rw [restore_err_none s hv]
      simp [hv]
    · have hvf : s.venus = false := by simpa using hv
      rw [restore_fatal_unfold s hvf]
      simp [hvf]
  · intro hvf
    exact ⟨disable_fatal_unfold s hvf, restore_fatal_unfold s hvf⟩
  · intro hv hb
    exact ⟨disable_warn_busdown s hv hb, disable_warn_buswrite s hv hb,
      restore_warn_buswrite s hv hb⟩
  · intro hv h1 h2
    exact ⟨disable_warn_remount s hv h1 h2, restore_warn_remount s hv h1 h2⟩
  · intro hv n p hn hp hc
    exact ⟨fun hg => disable_warn_chmod s hv n p hn hp hg hc,
      fun hf hg => restore_warn_chmod s hv n p hn hp hf hg hc⟩
  · intro hv n hn
    rw [disable_svcUp s hv n, if_pos hn]

theorem claim_C4_witness :
    (disable_victron_ble wsBusDown).err = none
    ∧ Ev.warn "could not read current settings" ∈ (disable_victron_ble wsBusDown).evs
    ∧ (disable_victron_ble wsNoVenus).err = some fatalMsg
    ∧ Ev.warn "failed to remount root read-write" ∈ (disable_victron_ble wsRwFail).evs
    ∧ Ev.warn ("could not chmod " ++ "/service/dbus-ble-sensors/run")
        ∈ (disable_victron_ble wsChmodFail).evs := by
  refine ⟨?_, ?_, ?_, ?_, ?_⟩
  · exact (claim_C4_failure_policy wsBusDown).1.mpr rfl
  · exact ((claim_C4_failure_policy wsBusDown).2.2.2.1 rfl rfl).1
  · rw [((claim_C4_failure_policy wsNoVenus).2.2.1 rfl).1]
  · exact ((claim_C4_failure_policy wsRwFail).2.2.2.2.1 rfl rfl rfl).1
  · exact ((claim_C4_failure_policy wsChmodFail).2.2.2.2.2.1 rfl "dbus-ble-sensors"
      "/service/dbus-ble-sensors/run" (Or.inl rfl) (by decide) (by decide)).1 (by decide)

/-- C5: `disable_victron_ble` first verifies the host (on a non-Venus host
it exits fatally having changed nothing); on a Venus host it finishes
without a fatal error and, when the bus is up, leaves the state file holding the
pre-disable values of both settings while both settings themselves are 0
(so the save ran before the zeroing); each of the two services ends down,
with a stop command issued exactly when the service was running; and every
known script path carries the disable pass's result: a path that was
executable and whose chmod works ends non-executable. -/
theorem claim_C5_disable_spec (s : Sys) (hv : s.venus = true) :
    (∀ t : Sys, t.venus = false → disable_victron_ble t = ⟨t, [], some fatalMsg⟩)
    ∧ (disable_victron_ble s).err = none
    ∧ (s.busUp = true →
        (disable_victron_ble s).state.stateFile = some (savedContent s)
        ∧ (disable_victron_ble s).state.bus blePath = 0
        ∧ (disable_victron_ble s).state.bus btPath = 0)
    ∧ (∀ n, (n = "dbus-ble-sensors" ∨ n = "vesmart-server") →
        (disable_victron_ble s).state.svcUp n = false
        ∧ (Ev.svcDown n ∈ (disable_victron_ble s).evs ↔ s.svcUp n = true))
    ∧ (∀ n ∈ SERVICES, ∀ p ∈ all_scripts n,
        (disable_victron_ble s).state.fileMode p = offResult s p)
    ∧ (∀ n ∈ SERVICES, ∀ p ∈ all_scripts n,
        accessX s p = true → s.chmodFails p = false →
        accessX (disable_victron_ble s).state p = false) := by
  refine ⟨disable_fatal_unfold, ?_, ?_, ?_, ?_, ?_⟩
  · rw [disable_venus_unfold s hv]
  · intro hb
    refine ⟨?_, ?_, ?_⟩
    · rw [disable_stateFile s hv, if_pos hb]
    · rw [disable_bus s hv blePath, if_pos ⟨hb, Or.inl rfl⟩]
    · rw [disable_bus s hv btPath, if_pos ⟨hb, Or.inr rfl⟩]
  · intro n hn
    exact ⟨by rw [disable_svcUp s hv n, if_pos hn], disable_svcDown_iff s hv n hn⟩
  · intro n hn p hp
    have hmem : p ∈ allKnownPaths := by
      rw [allKnownPaths_eq]
      have hn' : n = "dbus-ble-sensors" ∨ n = "vesmart-server" := by
        simpa [SERVICES] using hn
      rcases hn' with rfl | rfl
      · exact List.mem_append_left _ hp
      · exact List.mem_append_right _ hp
    rw [disable_fileMode s hv p, if_pos hmem]
  · intro n hn p hp hg hcf
    have hmem : p ∈ allKnownPaths := by
      rw [allKnownPaths_eq]
      have hn' : n = "dbus-ble-sensors" ∨ n = "vesmart-server" := by
        simpa [SERVICES] using hn
      rcases hn' with rfl | rfl
      · exact List.mem_append_left _ hp
      · exact List.mem_append_right _ hp
    have hfm : (disable_victron_ble s).state.fileMode p = offResult s p := by
      rw [disable_fileMode s hv p, if_pos hmem]
    exact offResult_access_false s _ p hfm hcf

theorem claim_C5_witness :
    (disable_victron_ble wsBase).err = none
    ∧ (disable_victron_ble wsBase).state.bus blePath = 0
    ∧ (disable_victron_ble wsBase).state.svcUp "dbus-ble-sensors" = false
    ∧ (disable_victron_ble wsBase).state.fileMode "/service/dbus-ble-sensors/run"
        = offResult wsBase "/service/dbus-ble-sensors/run"
    ∧ accessX (disable_victron_ble wsBase).state "/service/dbus-ble-sensors/run"
        = false := by
  have h := claim_C5_disable_spec wsBase rfl
  exact ⟨h.2.1, (h.2.2.1 rfl).2.1, (h.2.2.2.1 "dbus-ble-sensors" (Or.inl rfl)).1,
    h.2.2.2.2.1 "dbus-ble-sensors" (by decide) "/service/dbus-ble-sensors/run" (by decide),
    h.2.2.2.2.2 "dbus-ble-sensors" (by decide) "/service/dbus-ble-sensors/run" (by decide)
      (by decide) rfl⟩

/-- C6: under the Venus OS check, `restore_victron_ble` finishes without a
fatal error; when the bus is up it writes back the loaded values (missing
keys defaulting to 1) read from the pre-restore state file; every known
script path carries the restore pass's result, so an existing path whose
chmod works ends executable; each service with an existing supervision
directory is started; and the state file is deleted, with the removal
happening exactly when the file existed. -/
theorem claim_C6_restore_spec (s : Sys) (hv : s.venus = true) :
    (restore_victron_ble s).err = none
    ∧ (s.busUp = true →
        (restore_victron_ble s).state.bus blePath = vBle s
        ∧ (restore_victron_ble s).state.bus btPath = vBt s)
    ∧ (∀ n ∈ SERVICES, ∀ p ∈ all_scripts n,
        (restore_victron_ble s).state.fileMode p = onResult s p)
    ∧ (∀ n ∈ SERVICES, ∀ p ∈ all_scripts n,
        (s.fileMode p).isSome = true → s.chmodFails p = false →
        accessX (restore_victron_ble s).state p = true)
    ∧ (∀ n, (n = "dbus-ble-sensors" ∨ n = "vesmart-server") →
        (s.svcDir n = true → (restore_victron_ble s).state.svcUp n = true)
        ∧ (Ev.svcStart n ∈ (restore_victron_ble s).evs ↔ s.svcDir n = true))
    ∧ (restore_victron_ble s).state.stateFile = none
    ∧ (Ev.removeState ∈ (restore_victron_ble s).evs ↔ s.stateFile.isSome = true) := by
  refine ⟨restore_err_none s hv, ?_, ?_, ?_, ?_, restore_stateFile s hv,
    restore_removeState_iff s hv⟩
  · intro hb
    constructor
    · rw [restore_bus s hv blePath,
          if_neg (fun h => absurd h.2 (by decide)), if_pos ⟨hb, rfl⟩]
    · rw [restore_bus s hv btPath, if_pos ⟨hb, rfl⟩]
  · intro n hn p hp
    have hmem : p ∈ allKnownPaths := by
      rw [allKnownPaths_eq]
      have hn' : n = "dbus-ble-sensors" ∨ n = "vesmart-server" := by
        simpa [SERVICES] using hn
      rcases hn' with rfl | rfl
      · exact List.mem_append_left _ hp
      · exact List.mem_append_right _ hp
    rw [restore_fileMode s hv p, if_pos hmem]
  · intro n hn p hp hf hcf
    have hmem : p ∈ allKnownPaths := by
      rw [allKnownPaths_eq]
      have hn' : n = "dbus-ble-sensors" ∨ n = "vesmart-server" := by
        simpa [SERVICES] using hn
      rcases hn' with rfl | rfl
      · exact List.mem_append_left _ hp
      · exact List.mem_append_right _ hp
    have hfm : (restore_victron_ble s).state.fileMode p = onResult s p := by
      rw [restore_fileMode s hv p, if_pos hmem]
    exact onResult_access_true s _ p hfm hf hcf
  · intro n hn
    constructor
    · intro hd
      rw [restore_svcUp s hv n, if_pos ⟨hn, hd⟩]
    · exact restore_svcStart_iff s hv n hn

theorem claim_C6_witness :
    (restore_victron_ble wsBase).err = none
    ∧ (restore_victron_ble wsBase).state.bus blePath = vBle wsBase
    ∧ (restore_victron_ble wsBase).state.stateFile = none
    ∧ (restore_victron_ble wsBase).state.svcUp "dbus-ble-sensors" = true
    ∧ accessX (restore_victron_ble wsBase).state "/service/dbus-ble-sensors/run"
        = true := by
  have h := claim_C6_restore_spec wsBase rfl
  exact ⟨h.1, (h.2.1 rfl).1, h.2.2.2.2.2.1,
    (h.2.2.2.2.1 "dbus-ble-sensors" (Or.inl rfl)).1 (by decide),
    h.2.2.2.1 "dbus-ble-sensors" (by decide) "/service/dbus-ble-sensors/run"
      (by decide) (by decide) rfl⟩

/-- C1 (counterexample to the claim as stated): a script with mode `0o744`
(execute bit for the owner only) ends with mode `0o755` after disable then
restore, because restore sets all three execute bits; so the
execute-permission bits are not returned to the values they had before the
disable. -/
theorem claim_C1_counterexample :
    wsBase.fileMode "/service/dbus-ble-sensors/run" = some 0o744
    ∧ (restore_victron_ble (disable_victron_ble wsBase).state).state.fileMode
        "/service/dbus-ble-sensors/run" = some 0o755
    ∧ (0o755 : Nat) ≠ 0o744 := by
  refine ⟨by decide, ?_, by decide⟩
  have hv1 : (disable_victron_ble wsBase).state.venus = true :=
    (disable_venus wsBase rfl).trans rfl
  have h := restore_fileMode (disable_victron_ble wsBase).state hv1
    "/service/dbus-ble-sensors/run"
  rw [h, if_pos (by decide)]
  have h1 := disable_fileMode wsBase rfl "/service/dbus-ble-sensors/run"
  rw [if_pos (by decide)] at h1
  have hoff : offResult wsBase "/service/dbus-ble-sensors/run" = some 420 := by decide
  rw [hoff] at h1
  have hcf : (disable_victron_ble wsBase).state.chmodFails
      "/service/dbus-ble-sensors/run" = false :=
    (congrFun (disable_chmodFails wsBase rfl) "/service/dbus-ble-sensors/run").trans rfl
  unfold onResult
  rw [h1, hcf]
  decide

/-- C1 (amended): after disable then restore, both persisted settings
return to their pre-disable values (when the bus is up they are saved and
written back; when it is down no write ever goes through), and every known
script path that was executable before the disable is executable again
after the restore — though its exact execute-permission bits may differ,
since restore sets all three. -/
theorem claim_C1_disable_restore (s : Sys) (hv : s.venus = true) :
    (s.busUp = true →
      (restore_victron_ble (disable_victron_ble s).state).state.bus blePath
        = s.bus blePath
      ∧ (restore_victron_ble (disable_victron_ble s).state).state.bus btPath
        = s.bus btPath)
    ∧ (s.busUp = false →
      ∀ q, (restore_victron_ble (disable_victron_ble s).state).state.bus q = s.bus q)
    ∧ (∀ n ∈ SERVICES, ∀ p ∈ all_scripts n,
      accessX s p = true →
      accessX (restore_victron_ble (disable_victron_ble s).state).state p = true) := by
  have hv1 : (disable_victron_ble s).state.venus = true := by
    rw [disable_venus s hv, hv]
  have hbu : (disable_victron_ble s).state.busUp = s.busUp := disable_busUp s hv
  refine ⟨?_, ?_, ?_⟩
  · intro hb
    have hsf1 : (disable_victron_ble s).state.stateFile = some (savedContent s) := by
      rw [disable_stateFile s hv, if_pos hb]
    have hload : load_saved_settings (disable_victron_ble s).state
        = [("BleSensors", s.bus blePath), ("Bluetooth", s.bus btPath)] := by
      unfold load_saved_settings
      rw [hsf1]
      unfold savedContent
      apply roundtrip_general
      · intro kv hkv
        rcases List.mem_cons.mp hkv with rfl | hkv2
        · exact (by decide :
            ∀ c ∈ ("BleSensors" : String).data, pyIsSpace c = false ∧ c ≠ '=' ∧ c ≠ '\n')
        · rcases List.mem_cons.mp hkv2 with rfl | h0
          · exact (by decide :
              ∀ c ∈ ("Bluetooth" : String).data, pyIsSpace c = false ∧ c ≠ '=' ∧ c ≠ '\n')
          · cases h0
      · rw [show ([("BleSensors", s.bus blePath),
            ("Bluetooth", s.bus btPath)]).map Prod.fst
            = ["BleSensors", "Bluetooth"] from rfl]
        decide
    have hvble : vBle (disable_victron_ble s).state = s.bus blePath := by
      unfold vBle
      rw [hload]
      rfl
    have hvbt : vBt (disable_victron_ble s).state = s.bus btPath := by
      unfold vBt
      rw [hload]
      rfl
    have hbu1 : (disable_victron_ble s).state.busUp = true := hbu.trans hb
    constructor
    · rw [restore_bus (disable_victron_ble s).state hv1 blePath,
          if_neg (fun h => absurd h.2 (by decide)), if_pos ⟨hbu1, rfl⟩, hvble]
    · rw [restore_bus (disable_victron_ble s).state hv1 btPath,
          if_pos ⟨hbu1, rfl⟩, hvbt]
  · intro hb q
    have h1 : (disable_victron_ble s).state.bus q = s.bus q := by
      rw [disable_bus s hv q]
      simp [hb]
    have hbu0 : (disable_victron_ble s).state.busUp = false := hbu.trans hb
    rw [restore_bus (disable_victron_ble s).state hv1 q,
        if_neg (fun h => by rw [hbu0] at h; exact absurd h.1 (by decide)),
        if_neg (fun h => by rw [hbu0] at h; exact absurd h.1 (by decide)), h1]
  · intro n hn p hp hg
    have hmem : p ∈ allKnownPaths := by
      rw [allKnownPaths_eq]
      have hn' : n = "dbus-ble-sensors" ∨ n = "vesmart-server" := by
        simpa [SERVICES] using hn
      rcases hn' with rfl | rfl
      · exact List.mem_append_left _ hp
      · exact List.mem_append_right _ hp
    have h1 : (disable_victron_ble s).state.fileMode p = offResult s p := by
      rw [disable_fileMode s hv p, if_pos hmem]
    have hc1 : (disable_victron_ble s).state.chmodFails p = s.chmodFails p :=
      congrFun (disable_chmodFails s hv) p
    have h2 : (restore_victron_ble (disable_victron_ble s).state).state.fileMode p
        = onResult (disable_victron_ble s).state p := by
      rw [restore_fileMode (disable_victron_ble s).state hv1 p, if_pos hmem]
    exact off_then_on_exec s _ _ p h1 hc1 h2 hg

theorem claim_C1_witness :
    (restore_victron_ble (disable_victron_ble wsBase).state).state.bus blePath = 3
    ∧ accessX (restore_victron_ble (disable_victron_ble wsBase).state).state
        "/service/dbus-ble-sensors/run" = true := by
  have h := claim_C1_disable_restore wsBase rfl
  constructor
  · rw [(h.1 rfl).1]
    decide
  · exact h.2.2 "dbus-ble-sensors" (by decide) "/service/dbus-ble-sensors/run"
      (by decide) (by decide)

/-- C2 (counterexample to the claim as stated): on the state produced by a
first disable, a second disable still issues both settings writes and
rewrites the state file — those mutations are not gated by a check of the
current state — and the rewrite replaces the saved pre-disable values with
the already-zeroed ones. -/
theorem claim_C2_counterexample :
    Ev.dbusSet blePath 0 ∈ (disable_victron_ble (disable_victron_ble wsBase).state).evs
    ∧ Ev.writeState (savedContent (disable_victron_ble wsBase).state)
        ∈ (disable_victron_ble (disable_victron_ble wsBase).state).evs
    ∧ (disable_victron_ble (disable_victron_ble wsBase).state).state.stateFile
        ≠ (disable_victron_ble wsBase).state.stateFile := by
  have hv1 : (disable_victron_ble wsBase).state.venus = true :=
    (disable_venus wsBase rfl).trans rfl
  have hbu1 : (disable_victron_ble wsBase).state.busUp = true :=
    disable_busUp wsBase rfl
  have hb1 : (disable_victron_ble wsBase).state.bus blePath = 0 := by
    rw [disable_bus wsBase rfl blePath, if_pos ⟨rfl, Or.inl rfl⟩]
  have hb2 : (disable_victron_ble wsBase).state.bus btPath = 0 := by
    rw [disable_bus wsBase rfl btPath, if_pos ⟨rfl, Or.inr rfl⟩]
  refine ⟨?_, ?_, ?_⟩
  · rw [disable_venus_unfold _ hv1]
    apply List.mem_append_left
    apply List.mem_append_right
    rw [zeroSettings_evs]
    simp
  · rw [disable_venus_unfold _ hv1]
    apply List.mem_append_left
    apply List.mem_append_left
    rw [save_settings_eq, hbu1]
    simp
  · have hS1 : (disable_victron_ble wsBase).state.stateFile
        = some (savedContent wsBase) := by
      rw [disable_stateFile wsBase rfl,
          if_pos (show wsBase.busUp = true from rfl)]
    have hS2 : (disable_victron_ble (disable_victron_ble wsBase).state).state.stateFile
        = some (savedContent (disable_victron_ble wsBase).state) := by
      rw [disable_stateFile _ hv1, if_pos hbu1]
    have keyNice : ∀ (v1 v2 : Int), ∀ kv ∈ [("BleSensors", v1), ("Bluetooth", v2)],
        ∀ c ∈ kv.1.data, pyIsSpace c = false ∧ c ≠ '=' ∧ c ≠ '\n' := by
      intro v1 v2 kv hkv
      rcases List.mem_cons.mp hkv with rfl | hkv2
      · exact (by decide :
          ∀ c ∈ ("BleSensors" : String).data, pyIsSpace c = false ∧ c ≠ '=' ∧ c ≠ '\n')
      · rcases List.mem_cons.mp hkv2 with rfl | h0
        · exact (by decide :
            ∀ c ∈ ("Bluetooth" : String).data, pyIsSpace c = false ∧ c ≠ '=' ∧ c ≠ '\n')
        · cases h0
    have keyNodup : ∀ (v1 v2 : Int),
        (([("BleSensors", v1), ("Bluetooth", v2)]).map Prod.fst).Nodup := by
      intro v1 v2
      rw [show ([("BleSensors", v1), ("Bluetooth", v2)]).map Prod.fst
          = ["BleSensors", "Bluetooth"] from rfl]
      decide
    have hA : loadContent (savedContent (disable_victron_ble wsBase).state)
        = [("BleSensors", (0 : Int)), ("Bluetooth", 0)] := by
      unfold savedContent
      rw [hb1, hb2]
      exact roundtrip_general _ (keyNice 0 0) (keyNodup 0 0)
    have hB : loadContent (savedContent wsBase)
        = [("BleSensors", (3 : Int)), ("Bluetooth", 1)] := by
      unfold savedContent
      rw [show wsBase.bus blePath = 3 from by decide,
          show wsBase.bus btPath = 1 from by decide]
      exact roundtrip_general _ (keyNice 3 1) (keyNodup 3 1)
    rw [hS1, hS2]
    intro heq
    have heq2 : savedContent (disable_victron_ble wsBase).state
        = savedContent wsBase := by
      simpa using heq
    have := congrArg loadContent heq2
    rw [hA, hB] at this
    exact absurd this (by decide)

/-- C2 (amended): the permission- and status-gated mutations are not
repeated — re-running disable on a state it produced performs no chmod and
no service stop, and re-running restore performs no chmod and no state-file
deletion — but the settings writes, the state-file write of disable and the
service-start command of restore are unconditional and run again; in
particular the second disable overwrites the state file with the
already-zeroed values. -/
theorem claim_C2_gated_idempotence (s : Sys) (hv : s.venus = true)
    (hcf : ∀ p, s.chmodFails p = false) :
    (∀ e ∈ (disable_victron_ble (disable_victron_ble s).state).evs,
        evIsChmod e = false ∧ evIsSvcDown e = false)
    ∧ (∀ e ∈ (restore_victron_ble (restore_victron_ble s).state).evs,
        evIsChmod e = false ∧ evIsRemoveState e = false)
    ∧ (s.busUp = true →
        (disable_victron_ble (disable_victron_ble s).state).state.stateFile
          = some (savedContent (disable_victron_ble s).state)
        ∧ Ev.writeState (savedContent (disable_victron_ble s).state)
            ∈ (disable_victron_ble (disable_victron_ble s).state).evs
        ∧ Ev.dbusSet blePath 0
            ∈ (disable_victron_ble (disable_victron_ble s).state).evs) := by
  have hv1 : (disable_victron_ble s).state.venus = true := by
    rw [disable_venus s hv, hv]
  have hv1r : (restore_victron_ble s).state.venus = true := by
    rw [restore_venus s hv, hv]
  refine ⟨?_, ?_, ?_⟩
  · apply disable_second_shape _ hv1
    · intro p hp
      have h1 : (disable_victron_ble s).state.fileMode p = offResult s p := by
        rw [disable_fileMode s hv p, if_pos hp]
      exact offResult_guard_false s p (hcf p) _ h1
    · rw [disable_svcUp s hv, if_pos (Or.inl rfl)]
    · rw [disable_svcUp s hv, if_pos (Or.inr rfl)]
  · apply restore_second_shape _ hv1r
    · intro p hp
      have h1 : (restore_victron_ble s).state.fileMode p = onResult s p := by
        rw [restore_fileMode s hv p, if_pos hp]
      exact onResult_guard_false s p (hcf p) _ h1
    · exact restore_stateFile s hv
  · intro hb
    have hbu1 : (disable_victron_ble s).state.busUp = true :=
      (disable_busUp s hv).trans hb
    refine ⟨?_, ?_, ?_⟩
    · rw [disable_stateFile _ hv1, if_pos hbu1]
    · rw [disable_venus_unfold _ hv1]
      apply List.mem_append_left
      apply List.mem_append_left
      rw [save_settings_eq, hbu1]
      simp
    · rw [disable_venus_unfold _ hv1]
      apply List.mem_append_left
      apply List.mem_append_right
      rw [zeroSettings_evs]
      simp

theorem claim_C2_witness :
    (disable_victron_ble (disable_victron_ble wsBase).state).state.stateFile
      = some (savedContent (disable_victron_ble wsBase).state)
    ∧ Ev.dbusSet blePath 0
        ∈ (disable_victron_ble (disable_victron_ble wsBase).state).evs := by
  have h := claim_C2_gated_idempotence wsBase rfl (fun p => rfl)
  exact ⟨(h.2.2 rfl).1, (h.2.2 rfl).2.2⟩
